import Mathlib

/-!  Shallow embedding of the synthetics configuration system's core
(`config::parse_json` in `config.cpp`): the JSON data model, the typed
domain structs with their declared defaults, and the parse/map/default/
coerce pass.  Maps are modelled as association lists; floating-point
JSON numbers are modelled exactly as rationals; library exceptions are
modelled with `Except String`. -/

/-- JSON values as decoded by the JSON library.  Numbers keep the
library's distinction between integer and floating-point storage.
Objects are association lists of key/value pairs (decoded documents
produced by the library have unique keys). -/
inductive JVal where
  | null : JVal
  | bool : Bool → JVal
  | int : Int → JVal
  | float : Rat → JVal
  | str : String → JVal
  | arr : List JVal → JVal
  | obj : List (String × JVal) → JVal

/-- Key lookup on a JSON value: the value stored under key `k` when the
value is an object containing `k`, `none` otherwise.  This models the
`contains`/`at` pair of the library, where `at` is only reached after a
positive `contains` (and `contains` on a non-object is `false`). -/
def JVal.find? (j : JVal) (k : String) : Option JVal :=
  match j with
  | .obj kvs => kvs.lookup k
  | _ => none

/-- Whether a JSON value is an object (`is_object`). -/
def JVal.isObject : JVal → Bool
  | .obj _ => true
  | _ => false

/-- Truncation toward zero of a rational, modelling `static_cast<int>`
applied to a floating-point value. -/
def ratTrunc (q : Rat) : Int := q.num.tdiv (q.den : Int)

/-- `get<std::string>`: succeeds only on strings. -/
def getStr : JVal → Except String String
  | .str s => .ok s
  | _ => .error "type must be string"

/-- `get<bool>`: succeeds only on booleans. -/
def getBool : JVal → Except String Bool
  | .bool b => .ok b
  | _ => .error "type must be boolean"

/-- `get<int>`: succeeds on numbers; floating-point storage is cast to
int by truncation toward zero. -/
def getInt : JVal → Except String Int
  | .int n => .ok n
  | .float q => .ok (ratTrunc q)
  | _ => .error "type must be number"

/-- `get<double>`: succeeds on numbers (integer storage is widened). -/
def getFloat : JVal → Except String Rat
  | .int n => .ok (n : Rat)
  | .float q => .ok q
  | _ => .error "type must be number"

/-- `get<std::vector<std::string>>`: requires an array of strings. -/
def getStrList : JVal → Except String (List String)
  | .arr xs => xs.mapM getStr
  | _ => .error "type must be array"

/-- `get<std::vector<int>>`: requires an array of numbers. -/
def getIntList : JVal → Except String (List Int)
  | .arr xs => xs.mapM getInt
  | _ => .error "type must be array"

/-- Association-list update modelling bracket-assignment on a C++
ordered map: overwrite the entry if the key exists, append otherwise.
Maps are modelled as association lists up to lookup. -/
def mapInsert {α : Type} (k : String) (v : α) : List (String × α) → List (String × α)
  | [] => [(k, v)]
  | (k', v') :: rest => if k = k' then (k, v) :: rest else (k', v') :: mapInsert k v rest

/-- Association-list insertion modelling `map::emplace`: keep the
existing entry if the key exists. -/
def mapEmplace {α : Type} (k : String) (v : α) : List (String × α) → List (String × α)
  | [] => [(k, v)]
  | (k', v') :: rest => if k = k' then (k', v') :: rest else (k', v') :: mapEmplace k v rest

/-- `get<std::map<std::string, std::string>>`: requires an object all of
whose values are strings. -/
def getStrMap (v : JVal) : Except String (List (String × String)) :=
  match v with
  | .obj kvs =>
    kvs.foldlM (fun acc kv => do
      let s ← getStr kv.2
      pure (mapEmplace kv.1 s acc)) []
  | _ => .error "type must be object"

/-- The library's `value(key, default)` member: on an object, return the
default when the key is missing and the typed conversion of the stored
value when present; on any non-object, raise a type error. -/
def jvalue {α : Type} (v : JVal) (k : String) (get : JVal → Except String α) (d : α) :
    Except String α :=
  match v with
  | .obj kvs =>
    match kvs.lookup k with
    | none => .ok d
    | some w => get w
  | _ => .error "cannot use value with non-object"

structure data_paths where
  derivatives_root : String := ""
  spot_root : String := ""
  export_root : String := ""
  log_root : String := ""
  deriving DecidableEq

structure data_scope where
  underlyings : List String := []
  date_from : String := ""
  date_to : String := ""
  instrument_classes : List String := []
  expiry_limit : Int := 0
  deriving DecidableEq

structure symbol_registry where
  mappings : List (String × List (String × String)) := []
  deriving DecidableEq

structure symbol_matching where
  options_mode : String := ""
  futures_mode : String := ""
  index_mode : String := ""
  is_case_sensitive : Bool := false
  trim_whitespace : Bool := false
  deriving DecidableEq

structure preprocessing where
  backward_fill : Bool := false
  forward_fill : Bool := false
  ignore_empty_files : Bool := false
  merge_daily_outputs : Bool := false
  deriving DecidableEq

structure acceleration where
  enable_gpu : Bool := false
  deriving DecidableEq

structure logger where
  stdout_level : String := ""
  file_log_level : String := ""
  log_template : String := ""
  timestamp_format : String := ""
  deriving DecidableEq

structure export_config where
  file_format : String := ""
  codec : String := ""
  deriving DecidableEq

structure stream_logging where
  is_enabled : Bool := false
  stream_log_root : String := ""
  output_formats : List String := []
  deriving DecidableEq

structure execution where
  io_chunk_size : Int := 0
  low_memory_mode : Bool := false
  enable_parallelism : Bool := true
  global_worker_cap : Int := 10
  parallelize_days : Bool := true
  day_worker_cap : Int := 10
  batch_days_mode : Bool := true
  days_per_batch : Int := 5
  ram_limited_day_workers : Int := 5
  parallelize_assets : Bool := false
  asset_worker_cap : Int := 10
  total_worker_cap : Int := 10
  parallel_file_io : Bool := true
  file_worker_cap : Int := 10
  zip_streaming_mode : Bool := false
  process_pool_csv : Bool := true
  parallel_fill_engine : Bool := true
  multiprocess_fill_engine : Bool := true
  fill_worker_cap : Int := 10
  fill_batch_size : Int := 50
  auto_scale_fill_workers : Bool := true
  parallel_monthly_engine : Bool := true
  monthly_worker_cap : Int := 10
  parallel_futures_engine : Bool := true
  futures_worker_cap : Int := 10
  parallel_greeks_engine : Bool := true
  greeks_worker_cap : Int := 10
  greeks_block_size : Int := 100000
  transform_worker_cap : Int := 10
  transform_block_size : Int := 1000
  parallel_tte_engine : Bool := true
  tte_worker_cap : Int := 10
  tte_block_size : Int := 500000
  parallel_synthetic_futures : Bool := true
  syn_fut_worker_cap : Int := 10
  syn_fut_block_size : Int := 500000
  use_memory_controller : Bool := false
  disable_memory_controller : Bool := true
  cache_monthly_expiries : Bool := true
  omit_spot_iv : Bool := false
  batch_scaling_factor : Int := 4
  deriving DecidableEq

structure post_compute where
  compute_synthetic_futures : Bool := false
  recompute_theoretical_greeks : Bool := false
  deriving DecidableEq

/-- Nested market-timing sub-struct of `market_constants`.  The field
defaults record the state produced by value-initialization of a freshly
allocated `market_constants`, which is what the fields hold when the
`trading_schedule` block is skipped. -/
structure marketTiming where
  session_open : String := ""
  session_close : String := ""
  minutes_per_session : Int := 0
  sessions_per_year : Int := 0
  deriving DecidableEq

structure market_constants where
  valid_underlyings : List String := []
  symbol_exceptions : List String := []
  expiry_cutoff_time : List Int := []
  calendar_month_map : List (String × String) := []
  numeric_month_map : List (String × String) := []
  alpha_month_map : List (String × String) := []
  market_timing : marketTiming := {}
  exchange_holidays : List String := []
  deriving DecidableEq

/-- The aggregate configuration: one optional value per domain, mirroring
the nullable domain pointers of the `config` class. -/
structure config where
  data_paths_config : Option data_paths
  data_scope_config : Option data_scope
  symbol_registry_config : Option symbol_registry
  symbol_matching_config : Option symbol_matching
  preprocessing_config : Option preprocessing
  acceleration_config : Option acceleration
  logger_config : Option logger
  export_config_ptr : Option export_config
  stream_logging_config : Option stream_logging
  execution_config : Option execution
  post_compute_config : Option post_compute
  market_constants_config : Option market_constants
  deriving DecidableEq

/-- A configuration with every domain pointer null. -/
def config.empty : config :=
  { data_paths_config := none, data_scope_config := none, symbol_registry_config := none,
    symbol_matching_config := none, preprocessing_config := none, acceleration_config := none,
    logger_config := none, export_config_ptr := none, stream_logging_config := none,
    execution_config := none, post_compute_config := none, market_constants_config := none }

/-- Lift a per-domain object mapper to the optional-domain step: an
absent key yields an absent domain; a present key runs the mapper and,
on success, stores the constructed value (the pointer assignment in the
source happens only after the whole domain block has run without
throwing). -/
def optStep {α : Type} (f : JVal → Except String α) : Option JVal → Except String (Option α)
  | none => .ok none
  | some v => (f v).map some

/-- Domain mapper for `data_paths` (config.cpp lines 470-480). -/
def parse_data_paths_obj (p : JVal) : Except String data_paths := do
  let derivatives_root ← jvalue p "derivatives_root" getStr ""
  let spot_root ← jvalue p "spot_root" getStr ""
  let export_root ← jvalue p "export_root" getStr ""
  let log_root ← jvalue p "log_root" getStr export_root
  pure { derivatives_root, spot_root, export_root, log_root }

def parse_data_paths : Option JVal → Except String (Option data_paths) :=
  optStep parse_data_paths_obj

/-- Domain mapper for `data_scope` (config.cpp lines 483-494). -/
def parse_data_scope_obj (e : JVal) : Except String data_scope := do
  let underlyings ← jvalue e "underlyings" getStrList []
  let date_from ← jvalue e "date_from" getStr ""
  let date_to ← jvalue e "date_to" getStr ""
  let instrument_classes ← jvalue e "instrument_classes" getStrList []
  let expiry_limit ← jvalue e "expiry_limit" getInt 0
  pure { underlyings, date_from, date_to, instrument_classes, expiry_limit }

def parse_data_scope : Option JVal → Except String (Option data_scope) :=
  optStep parse_data_scope_obj

/-- The registry loop of the `symbol_registry` mapper: iterate the
entries in order; an entry whose value is an object is decoded as a
string-to-string map and assigned into the registry under the entry's
key; any other entry is skipped. -/
def build_registry (entries : List (String × JVal))
    (acc : List (String × List (String × String))) :
    Except String (List (String × List (String × String))) :=
  match entries with
  | [] => .ok acc
  | (k, v) :: rest =>
    if v.isObject then
      match getStrMap v with
      | .error m => .error m
      | .ok d => build_registry rest (mapInsert k d acc)
    else build_registry rest acc

/-- Domain mapper for `symbol_registry` (config.cpp lines 497-510): a
non-object registry value is skipped wholesale, leaving the freshly
allocated empty mapping. -/
def parse_symbol_registry_obj (m : JVal) : Except String symbol_registry :=
  match m with
  | .obj kvs => (build_registry kvs []).map (fun mp => { mappings := mp })
  | _ => .ok { mappings := [] }

def parse_symbol_registry : Option JVal → Except String (Option symbol_registry) :=
  optStep parse_symbol_registry_obj

/-- Domain mapper for `symbol_matching` (config.cpp lines 513-522). -/
def parse_symbol_matching_obj (mm : JVal) : Except String symbol_matching := do
  let options_mode ← jvalue mm "options_mode" getStr ""
  let futures_mode ← jvalue mm "futures_mode" getStr ""
  let index_mode ← jvalue mm "index_mode" getStr ""
  let is_case_sensitive ← jvalue mm "is_case_sensitive" getBool false
  let trim_whitespace ← jvalue mm "trim_whitespace" getBool false
  pure { options_mode, futures_mode, index_mode, is_case_sensitive, trim_whitespace }

def parse_symbol_matching : Option JVal → Except String (Option symbol_matching) :=
  optStep parse_symbol_matching_obj

/-- Domain mapper for `preprocessing` (config.cpp lines 525-533). -/
def parse_preprocessing_obj (pr : JVal) : Except String preprocessing := do
  let forward_fill ← jvalue pr "forward_fill" getBool false
  let backward_fill ← jvalue pr "backward_fill" getBool false
  let ignore_empty_files ← jvalue pr "ignore_empty_files" getBool false
  let merge_daily_outputs ← jvalue pr "merge_daily_outputs" getBool false
  pure { forward_fill, backward_fill, ignore_empty_files, merge_daily_outputs }

def parse_preprocessing : Option JVal → Except String (Option preprocessing) :=
  optStep parse_preprocessing_obj

/-- Domain mapper for `acceleration` (config.cpp lines 536-541). -/
def parse_acceleration_obj (gr : JVal) : Except String acceleration := do
  let enable_gpu ← jvalue gr "enable_gpu" getBool false
  pure { enable_gpu }

def parse_acceleration : Option JVal → Except String (Option acceleration) :=
  optStep parse_acceleration_obj

/-- Domain mapper for `logger` (config.cpp lines 544-552). -/
def parse_logger_obj (lr : JVal) : Except String logger := do
  let stdout_level ← jvalue lr "stdout_level" getStr "info"
  let file_log_level ← jvalue lr "file_log_level" getStr "info"
  let log_template ← jvalue lr "log_template" getStr ""
  let timestamp_format ← jvalue lr "timestamp_format" getStr ""
  pure { stdout_level, file_log_level, log_template, timestamp_format }

def parse_logger : Option JVal → Except String (Option logger) :=
  optStep parse_logger_obj

/-- Domain mapper for `export` (config.cpp lines 555-561). -/
def parse_export_obj (orr : JVal) : Except String export_config := do
  let file_format ← jvalue orr "file_format" getStr "parquet"
  let codec ← jvalue orr "codec" getStr "none"
  pure { file_format, codec }

def parse_export : Option JVal → Except String (Option export_config) :=
  optStep parse_export_obj

/-- Domain mapper for `stream_logging` (config.cpp lines 564-571). -/
def parse_stream_logging_obj (dl : JVal) : Except String stream_logging := do
  let is_enabled ← jvalue dl "is_enabled" getBool false
  let stream_log_root ← jvalue dl "stream_log_root" getStr ""
  let output_formats ← jvalue dl "output_formats" getStrList []
  pure { is_enabled, stream_log_root, output_formats }

def parse_stream_logging : Option JVal → Except String (Option stream_logging) :=
  optStep parse_stream_logging_obj

/-- Domain mapper for `execution` (config.cpp lines 574-619): every
field falls back to the struct-declared default of a freshly constructed
`execution` value. -/
def parse_execution_obj (ar : JVal) : Except String execution := do
  let a : execution := {}
  let io_chunk_size ← jvalue ar "io_chunk_size" getInt a.io_chunk_size
  let low_memory_mode ← jvalue ar "low_memory_mode" getBool a.low_memory_mode
  let enable_parallelism ← jvalue ar "enable_parallelism" getBool a.enable_parallelism
  let global_worker_cap ← jvalue ar "global_worker_cap" getInt a.global_worker_cap
  let parallelize_days ← jvalue ar "parallelize_days" getBool a.parallelize_days
  let day_worker_cap ← jvalue ar "day_worker_cap" getInt a.day_worker_cap
  let batch_days_mode ← jvalue ar "batch_days_mode" getBool a.batch_days_mode
  let days_per_batch ← jvalue ar "days_per_batch" getInt a.days_per_batch
  let ram_limited_day_workers ← jvalue ar "ram_limited_day_workers" getInt a.ram_limited_day_workers
  let parallelize_assets ← jvalue ar "parallelize_assets" getBool a.parallelize_assets
  let asset_worker_cap ← jvalue ar "asset_worker_cap" getInt a.asset_worker_cap
  let total_worker_cap ← jvalue ar "total_worker_cap" getInt a.total_worker_cap
  let parallel_file_io ← jvalue ar "parallel_file_io" getBool a.parallel_file_io
  let file_worker_cap ← jvalue ar "file_worker_cap" getInt a.file_worker_cap
  let zip_streaming_mode ← jvalue ar "zip_streaming_mode" getBool a.zip_streaming_mode
  let process_pool_csv ← jvalue ar "process_pool_csv" getBool a.process_pool_csv
  let parallel_fill_engine ← jvalue ar "parallel_fill_engine" getBool a.parallel_fill_engine
  let multiprocess_fill_engine ← jvalue ar "multiprocess_fill_engine" getBool a.multiprocess_fill_engine
  let fill_worker_cap ← jvalue ar "fill_worker_cap" getInt a.fill_worker_cap
  let fill_batch_size ← jvalue ar "fill_batch_size" getInt a.fill_batch_size
  let auto_scale_fill_workers ← jvalue ar "auto_scale_fill_workers" getBool a.auto_scale_fill_workers
  let parallel_monthly_engine ← jvalue ar "parallel_monthly_engine" getBool a.parallel_monthly_engine
  let monthly_worker_cap ← jvalue ar "monthly_worker_cap" getInt a.monthly_worker_cap
  let parallel_futures_engine ← jvalue ar "parallel_futures_engine" getBool a.parallel_futures_engine
  let futures_worker_cap ← jvalue ar "futures_worker_cap" getInt a.futures_worker_cap
  let parallel_greeks_engine ← jvalue ar "parallel_greeks_engine" getBool a.parallel_greeks_engine
  let greeks_worker_cap ← jvalue ar "greeks_worker_cap" getInt a.greeks_worker_cap
  let greeks_block_size ← jvalue ar "greeks_block_size" getInt a.greeks_block_size
  let transform_worker_cap ← jvalue ar "transform_worker_cap" getInt a.transform_worker_cap
  let transform_block_size ← jvalue ar "transform_block_size" getInt a.transform_block_size
  let parallel_tte_engine ← jvalue ar "parallel_tte_engine" getBool a.parallel_tte_engine
  let tte_worker_cap ← jvalue ar "tte_worker_cap" getInt a.tte_worker_cap
  let tte_block_size ← jvalue ar "tte_block_size" getInt a.tte_block_size
  let parallel_synthetic_futures ← jvalue ar "parallel_synthetic_futures" getBool a.parallel_synthetic_futures
  let syn_fut_worker_cap ← jvalue ar "syn_fut_worker_cap" getInt a.syn_fut_worker_cap
  let syn_fut_block_size ← jvalue ar "syn_fut_block_size" getInt a.syn_fut_block_size
  let use_memory_controller ← jvalue ar "use_memory_controller" getBool a.use_memory_controller
  let disable_memory_controller ← jvalue ar "disable_memory_controller" getBool a.disable_memory_controller
  let cache_monthly_expiries ← jvalue ar "cache_monthly_expiries" getBool a.cache_monthly_expiries
  let omit_spot_iv ← jvalue ar "omit_spot_iv" getBool a.omit_spot_iv
  let batch_scaling_factor ← jvalue ar "batch_scaling_factor" getInt a.batch_scaling_factor
  pure { io_chunk_size, low_memory_mode, enable_parallelism, global_worker_cap,
         parallelize_days, day_worker_cap, batch_days_mode, days_per_batch,
         ram_limited_day_workers, parallelize_assets, asset_worker_cap, total_worker_cap,
         parallel_file_io, file_worker_cap, zip_streaming_mode, process_pool_csv,
         parallel_fill_engine, multiprocess_fill_engine, fill_worker_cap, fill_batch_size,
         auto_scale_fill_workers, parallel_monthly_engine, monthly_worker_cap,
         parallel_futures_engine, futures_worker_cap, parallel_greeks_engine,
         greeks_worker_cap, greeks_block_size, transform_worker_cap, transform_block_size,
         parallel_tte_engine, tte_worker_cap, tte_block_size, parallel_synthetic_futures,
         syn_fut_worker_cap, syn_fut_block_size, use_memory_controller,
         disable_memory_controller, cache_monthly_expiries, omit_spot_iv,
         batch_scaling_factor }

def parse_execution : Option JVal → Except String (Option execution) :=
  optStep parse_execution_obj

/-- Domain mapper for `post_compute` (config.cpp lines 622-628). -/
def parse_post_compute_obj (pr : JVal) : Except String post_compute := do
  let compute_synthetic_futures ← jvalue pr "compute_synthetic_futures" getBool false
  let recompute_theoretical_greeks ← jvalue pr "recompute_theoretical_greeks" getBool false
  pure { compute_synthetic_futures, recompute_theoretical_greeks }

def parse_post_compute : Option JVal → Except String (Option post_compute) :=
  optStep parse_post_compute_obj

/-- A month-lookup table of `market_constants`: populated only when the
key is present and its value is itself an object (config.cpp lines
637-645); otherwise the freshly allocated empty mapping is kept. -/
def month_map_of (cr : JVal) (k : String) : Except String (List (String × String)) :=
  match cr.find? k with
  | some v => if v.isObject then getStrMap v else pure []
  | none => pure []

/-- The `minutes_per_session` coercion (config.cpp lines 650-655): a
present `minutes_per_session` key is read as a floating-point number and
truncated to int; otherwise fall back to the integer key
`minutes_per_day` with default 0. -/
def minutes_per_session_of (mt : JVal) : Except String Int :=
  match mt.find? "minutes_per_session" with
  | some _ => do
    let q ← jvalue mt "minutes_per_session" getFloat 0
    pure (ratTrunc q)
  | none => jvalue mt "minutes_per_day" getInt 0

/-- The `sessions_per_year` fallback (config.cpp line 656): the default
argument `value("trading_days_per_year", 252)` is evaluated first, then
used as the default for `sessions_per_year`. -/
def sessions_per_year_of (mt : JVal) : Except String Int := do
  let d ← jvalue mt "trading_days_per_year" getInt 252
  jvalue mt "sessions_per_year" getInt d

/-- The `trading_schedule` block (config.cpp lines 646-657): run only
when the key is present and its value is an object; otherwise the
value-initialized `marketTiming` is kept. -/
def parse_market_timing (cr : JVal) : Except String marketTiming :=
  match cr.find? "trading_schedule" with
  | some mt =>
    if mt.isObject then do
      let session_open ← jvalue mt "session_open" getStr ""
      let session_close ← jvalue mt "session_close" getStr ""
      let minutes_per_session ← minutes_per_session_of mt
      let sessions_per_year ← sessions_per_year_of mt
      pure { session_open, session_close, minutes_per_session, sessions_per_year }
    else pure {}
  | none => pure {}

/-- Domain mapper for `market_constants` (config.cpp lines 631-660). -/
def parse_market_constants_obj (cr : JVal) : Except String market_constants := do
  let valid_underlyings ← jvalue cr "valid_underlyings" getStrList []
  let symbol_exceptions ← jvalue cr "symbol_exceptions" getStrList []
  let expiry_cutoff_time ← jvalue cr "expiry_cutoff_time" getIntList []
  let calendar_month_map ← month_map_of cr "calendar_month_map"
  let numeric_month_map ← month_map_of cr "numeric_month_map"
  let alpha_month_map ← month_map_of cr "alpha_month_map"
  let market_timing ← parse_market_timing cr
  let exchange_holidays ← jvalue cr "exchange_holidays" getStrList []
  pure { valid_underlyings, symbol_exceptions, expiry_cutoff_time, calendar_month_map,
         numeric_month_map, alpha_month_map, market_timing, exchange_holidays }

def parse_market_constants : Option JVal → Except String (Option market_constants) :=
  optStep parse_market_constants_obj

/-- The core parse/map pass `config::parse_json` (config.cpp lines
467-667), modelled as a state transformer on the aggregate: domains are
processed in source order, each assigning its domain member on
completion; the first uncaught error aborts the pass inside the
enclosing catch block, which returns `false`, leaving the members
assigned so far in place and the remaining members untouched; if no
error occurs the pass returns `true`. -/
def parse_json (j : JVal) (s : config) : Bool × config :=
  match parse_data_paths (j.find? "data_paths") with
  | .error _ => (false, s)
  | .ok v1 =>
    match parse_data_scope (j.find? "data_scope") with
    | .error _ =>
      (false,
        { s with
          data_paths_config := v1 }
      )
    | .ok v2 =>
      match parse_symbol_registry (j.find? "symbol_registry") with
      | .error _ =>
        (false,
          { s with
            data_paths_config := v1,
            data_scope_config := v2 }
        )
      | .ok v3 =>
        match parse_symbol_matching (j.find? "symbol_matching") with
        | .error _ =>
          (false,
            { s with
              data_paths_config := v1,
              data_scope_config := v2,
              symbol_registry_config := v3 }
          )
        | .ok v4 =>
          match parse_preprocessing (j.find? "preprocessing") with
          | .error _ =>
            (false,
              { s with
                data_paths_config := v1,
                data_scope_config := v2,
                symbol_registry_config := v3,
                symbol_matching_config := v4 }
            )
          | .ok v5 =>
            match parse_acceleration (j.find? "acceleration") with
            | .error _ =>
              (false,
                { s with
                  data_paths_config := v1,
                  data_scope_config := v2,
                  symbol_registry_config := v3,
                  symbol_matching_config := v4,
                  preprocessing_config := v5 }
              )
            | .ok v6 =>
              match parse_logger (j.find? "logger") with
              | .error _ =>
                (false,
                  { s with
                    data_paths_config := v1,
                    data_scope_config := v2,
                    symbol_registry_config := v3,
                    symbol_matching_config := v4,
                    preprocessing_config := v5,
                    acceleration_config := v6 }
                )
              | .ok v7 =>
                match parse_export (j.find? "export") with
                | .error _ =>
                  (false,
                    { s with
                      data_paths_config := v1,
                      data_scope_config := v2,
                      symbol_registry_config := v3,
                      symbol_matching_config := v4,
                      preprocessing_config := v5,
                      acceleration_config := v6,
                      logger_config := v7 }
                  )
                | .ok v8 =>
                  match parse_stream_logging (j.find? "stream_logging") with
                  | .error _ =>
                    (false,
                      { s with
                        data_paths_config := v1,
                        data_scope_config := v2,
                        symbol_registry_config := v3,
                        symbol_matching_config := v4,
                        preprocessing_config := v5,
                        acceleration_config := v6,
                        logger_config := v7,
                        export_config_ptr := v8 }
                    )
                  | .ok v9 =>
                    match parse_execution (j.find? "execution") with
                    | .error _ =>
                      (false,
                        { s with
                          data_paths_config := v1,
                          data_scope_config := v2,
                          symbol_registry_config := v3,
                          symbol_matching_config := v4,
                          preprocessing_config := v5,
                          acceleration_config := v6,
                          logger_config := v7,
                          export_config_ptr := v8,
                          stream_logging_config := v9 }
                      )
                    | .ok v10 =>
                      match parse_post_compute (j.find? "post_compute") with
                      | .error _ =>
                        (false,
                          { s with
                            data_paths_config := v1,
                            data_scope_config := v2,
                            symbol_registry_config := v3,
                            symbol_matching_config := v4,
                            preprocessing_config := v5,
                            acceleration_config := v6,
                            logger_config := v7,
                            export_config_ptr := v8,
                            stream_logging_config := v9,
                            execution_config := v10 }
                        )
                      | .ok v11 =>
                        match parse_market_constants (j.find? "market_constants") with
                        | .error _ =>
                          (false,
                            { s with
                              data_paths_config := v1,
                              data_scope_config := v2,
                              symbol_registry_config := v3,
                              symbol_matching_config := v4,
                              preprocessing_config := v5,
                              acceleration_config := v6,
                              logger_config := v7,
                              export_config_ptr := v8,
                              stream_logging_config := v9,
                              execution_config := v10,
                              post_compute_config := v11 }
                          )
                        | .ok v12 =>
                          (true,
                            { s with
                              data_paths_config := v1,
                              data_scope_config := v2,
                              symbol_registry_config := v3,
                              symbol_matching_config := v4,
                              preprocessing_config := v5,
                              acceleration_config := v6,
                              logger_config := v7,
                              export_config_ptr := v8,
                              stream_logging_config := v9,
                              execution_config := v10,
                              post_compute_config := v11,
                              market_constants_config := v12 }
                          )

/-- Modelled from the spec: the documented reading of `sessions_per_year`
for a `market_constants` object, following the spec's words — "read from
`sessions_per_year` if present, else `trading_days_per_year`, else
default 252", the timing sub-object being read under the key
`trading_schedule` and an absent field receiving its documented default.
This definition follows the spec's words and is compared with the
behavior of the source-derived `parse_market_timing`. -/
def sessions_per_year_spec (cr : JVal) : Except String Int :=
  match cr.find? "trading_schedule" with
  | none => .ok 252
  | some mt =>
    match mt.find? "sessions_per_year" with
    | some v => getInt v
    | none =>
      match mt.find? "trading_days_per_year" with
      | some v => getInt v
      | none => .ok 252

/-- Concrete document: a market_constants object whose trading_schedule
carries both timing aliases for `minutes_per_session`. -/
def doc_sched_alias : JVal :=
  JVal.obj [("market_constants", JVal.obj [("trading_schedule",
    JVal.obj [("minutes_per_session", JVal.float 375), ("minutes_per_day", JVal.int 800)])])]

/-- Concrete document: a market_constants object whose trading_schedule
carries both `sessions_per_year` keys. -/
def doc_sched_sessions : JVal :=
  JVal.obj [("market_constants", JVal.obj [("trading_schedule",
    JVal.obj [("sessions_per_year", JVal.int 300), ("trading_days_per_year", JVal.int 240)])])]

/-- Concrete document: a symbol_registry with one object-valued entry
and one non-object entry. -/
def doc_registry : JVal :=
  JVal.obj [("symbol_registry", JVal.obj
    [("A", JVal.obj [("x", JVal.str "1")]), ("B", JVal.str "not-an-object")])]

/-- Follows the spec's words: the supplied-or-default reading of one
field — "for each field, read the corresponding JSON key; if absent,
substitute the field's documented default; if present, use the supplied
value".  The error arm is unreachable under a successful parse, where a
mistyped supplied value aborts the whole parse instead of being
defaulted. -/
def fieldOr {α : Type} (get : JVal → Except String α) (o : JVal) (k : String) (d : α) : α :=
  match o.find? k with
  | some v =>
    match get v with
    | .ok a => a
    | .error _ => d
  | none => d

/-- Follows the spec's words: the Paths domain's supplied-or-default law, with log_root defaulting to the (possibly itself defaulted) export_root. -/
def data_paths_spec (p : JVal) : data_paths :=
  {
derivatives_root := fieldOr getStr p "derivatives_root" "",
  spot_root := fieldOr getStr p "spot_root" "",
  export_root := fieldOr getStr p "export_root" "",
  log_root := fieldOr getStr p "log_root" (fieldOr getStr p "export_root" "") }

/-- Follows the spec's words: the Data Scope domain's supplied-or-default law. -/
def data_scope_spec (e : JVal) : data_scope :=
  {
underlyings := fieldOr getStrList e "underlyings" [],
  date_from := fieldOr getStr e "date_from" "",
  date_to := fieldOr getStr e "date_to" "",
  instrument_classes := fieldOr getStrList e "instrument_classes" [],
  expiry_limit := fieldOr getInt e "expiry_limit" 0 }

/-- Follows the spec's words: the Symbol Registry rule as a total
mapping — object-valued entries are decoded and inserted under their
keys, non-object entries are skipped (the decode-error arm is
unreachable under a successful parse). -/
def registry_entries_or (entries : List (String × JVal))
    (acc : List (String × List (String × String))) : List (String × List (String × String)) :=
  match entries with
  | [] => acc
  | (k, v) :: rest =>
    if v.isObject then
      registry_entries_or rest
        (mapInsert k (match getStrMap v with | .ok d => d | .error _ => []) acc)
    else registry_entries_or rest acc

/-- Follows the spec's words: the Symbol Registry domain mapping; a
non-object registry value yields the empty mapping. -/
def registryOr (m : JVal) : List (String × List (String × String)) :=
  match m with
  | .obj entries => registry_entries_or entries []
  | _ => []

/-- Follows the spec's words: the Symbol Matching domain's supplied-or-default law (modes default to empty, flags to false). -/
def symbol_matching_spec (mm : JVal) : symbol_matching :=
  {
options_mode := fieldOr getStr mm "options_mode" "",
  futures_mode := fieldOr getStr mm "futures_mode" "",
  index_mode := fieldOr getStr mm "index_mode" "",
  is_case_sensitive := fieldOr getBool mm "is_case_sensitive" false,
  trim_whitespace := fieldOr getBool mm "trim_whitespace" false }

/-- Follows the spec's words: the Preprocessing domain's supplied-or-default law (all flags default false). -/
def preprocessing_spec (pr : JVal) : preprocessing :=
  {
backward_fill := fieldOr getBool pr "backward_fill" false,
  forward_fill := fieldOr getBool pr "forward_fill" false,
  ignore_empty_files := fieldOr getBool pr "ignore_empty_files" false,
  merge_daily_outputs := fieldOr getBool pr "merge_daily_outputs" false }

/-- Follows the spec's words: the Acceleration domain's supplied-or-default law. -/
def acceleration_spec (gr : JVal) : acceleration :=
  {
enable_gpu := fieldOr getBool gr "enable_gpu" false }

/-- Follows the spec's words: the Logger domain's supplied-or-default law (levels default to info). -/
def logger_spec (lr : JVal) : logger :=
  {
stdout_level := fieldOr getStr lr "stdout_level" "info",
  file_log_level := fieldOr getStr lr "file_log_level" "info",
  log_template := fieldOr getStr lr "log_template" "",
  timestamp_format := fieldOr getStr lr "timestamp_format" "" }

/-- Follows the spec's words: the Export domain's supplied-or-default law (format defaults to parquet, codec to none). -/
def export_spec (orr : JVal) : export_config :=
  {
file_format := fieldOr getStr orr "file_format" "parquet",
  codec := fieldOr getStr orr "codec" "none" }

/-- Follows the spec's words: the Stream Logging domain's supplied-or-default law. -/
def stream_logging_spec (dl : JVal) : stream_logging :=
  {
is_enabled := fieldOr getBool dl "is_enabled" false,
  stream_log_root := fieldOr getStr dl "stream_log_root" "",
  output_formats := fieldOr getStrList dl "output_formats" [] }

/-- Follows the spec's words: the Execution domain's supplied-or-default law, each field keeping its struct-declared default when its key is absent. -/
def execution_spec (ar : JVal) : execution :=
  {
io_chunk_size := fieldOr getInt ar "io_chunk_size" 0,
  low_memory_mode := fieldOr getBool ar "low_memory_mode" false,
  enable_parallelism := fieldOr getBool ar "enable_parallelism" true,
  global_worker_cap := fieldOr getInt ar "global_worker_cap" 10,
  parallelize_days := fieldOr getBool ar "parallelize_days" true,
  day_worker_cap := fieldOr getInt ar "day_worker_cap" 10,
  batch_days_mode := fieldOr getBool ar "batch_days_mode" true,
  days_per_batch := fieldOr getInt ar "days_per_batch" 5,
  ram_limited_day_workers := fieldOr getInt ar "ram_limited_day_workers" 5,
  parallelize_assets := fieldOr getBool ar "parallelize_assets" false,
  asset_worker_cap := fieldOr getInt ar "asset_worker_cap" 10,
  total_worker_cap := fieldOr getInt ar "total_worker_cap" 10,
  parallel_file_io := fieldOr getBool ar "parallel_file_io" true,
  file_worker_cap := fieldOr getInt ar "file_worker_cap" 10,
  zip_streaming_mode := fieldOr getBool ar "zip_streaming_mode" false,
  process_pool_csv := fieldOr getBool ar "process_pool_csv" true,
  parallel_fill_engine := fieldOr getBool ar "parallel_fill_engine" true,
  multiprocess_fill_engine := fieldOr getBool ar "multiprocess_fill_engine" true,
  fill_worker_cap := fieldOr getInt ar "fill_worker_cap" 10,
  fill_batch_size := fieldOr getInt ar "fill_batch_size" 50,
  auto_scale_fill_workers := fieldOr getBool ar "auto_scale_fill_workers" true,
  parallel_monthly_engine := fieldOr getBool ar "parallel_monthly_engine" true,
  monthly_worker_cap := fieldOr getInt ar "monthly_worker_cap" 10,
  parallel_futures_engine := fieldOr getBool ar "parallel_futures_engine" true,
  futures_worker_cap := fieldOr getInt ar "futures_worker_cap" 10,
  parallel_greeks_engine := fieldOr getBool ar "parallel_greeks_engine" true,
  greeks_worker_cap := fieldOr getInt ar "greeks_worker_cap" 10,
  greeks_block_size := fieldOr getInt ar "greeks_block_size" 100000,
  transform_worker_cap := fieldOr getInt ar "transform_worker_cap" 10,
  transform_block_size := fieldOr getInt ar "transform_block_size" 1000,
  parallel_tte_engine := fieldOr getBool ar "parallel_tte_engine" true,
  tte_worker_cap := fieldOr getInt ar "tte_worker_cap" 10,
  tte_block_size := fieldOr getInt ar "tte_block_size" 500000,
  parallel_synthetic_futures := fieldOr getBool ar "parallel_synthetic_futures" true,
  syn_fut_worker_cap := fieldOr getInt ar "syn_fut_worker_cap" 10,
  syn_fut_block_size := fieldOr getInt ar "syn_fut_block_size" 500000,
  use_memory_controller := fieldOr getBool ar "use_memory_controller" false,
  disable_memory_controller := fieldOr getBool ar "disable_memory_controller" true,
  cache_monthly_expiries := fieldOr getBool ar "cache_monthly_expiries" true,
  omit_spot_iv := fieldOr getBool ar "omit_spot_iv" false,
  batch_scaling_factor := fieldOr getInt ar "batch_scaling_factor" 4 }

/-- Follows the spec's words: the Post Compute domain's supplied-or-default law. -/
def post_compute_spec (pr : JVal) : post_compute :=
  {
compute_synthetic_futures := fieldOr getBool pr "compute_synthetic_futures" false,
  recompute_theoretical_greeks := fieldOr getBool pr "recompute_theoretical_greeks" false }

/-- Follows the spec's words: a month-lookup table defaults to the
empty mapping and is populated only when present and itself an object
(the decode-error arm is unreachable under a successful parse). -/
def month_map_or (cr : JVal) (k : String) : List (String × String) :=
  match cr.find? k with
  | some v =>
    if v.isObject then
      match getStrMap v with
      | .ok d => d
      | .error _ => []
    else []
  | none => []

/-- The minutes_per_session coercion as a total reading: a present
minutes_per_session key wins, read as a float truncated to int;
otherwise minutes_per_day with default 0. -/
def minutes_or (mt : JVal) : Int :=
  match mt.find? "minutes_per_session" with
  | some _ => ratTrunc (fieldOr getFloat mt "minutes_per_session" 0)
  | none => fieldOr getInt mt "minutes_per_day" 0

/-- The sessions_per_year fallback as a total reading: sessions_per_year
if present, else trading_days_per_year, else 252. -/
def sessions_or (mt : JVal) : Int :=
  fieldOr getInt mt "sessions_per_year" (fieldOr getInt mt "trading_days_per_year" 252)

/-- The trading_schedule reading of the source: run only when present
and an object, otherwise keep the value-initialized timing — this is the
amended behavior (an absent or non-object schedule yields the
value-initialized state, not the documented trading-schedule
defaults). -/
def market_timing_spec (cr : JVal) : marketTiming :=
  match cr.find? "trading_schedule" with
  | some mt =>
    if mt.isObject then
      { session_open := fieldOr getStr mt "session_open" "",
        session_close := fieldOr getStr mt "session_close" "",
        minutes_per_session := minutes_or mt,
        sessions_per_year := sessions_or mt }
    else {}
  | none => {}

/-- Follows the spec's words (with the amended market_timing caveat):
the Market Constants domain's supplied-or-default law. -/
def market_constants_spec (cr : JVal) : market_constants :=
  { valid_underlyings := fieldOr getStrList cr "valid_underlyings" [],
    symbol_exceptions := fieldOr getStrList cr "symbol_exceptions" [],
    expiry_cutoff_time := fieldOr getIntList cr "expiry_cutoff_time" [],
    calendar_month_map := month_map_or cr "calendar_month_map",
    numeric_month_map := month_map_or cr "numeric_month_map",
    alpha_month_map := month_map_or cr "alpha_month_map",
    market_timing := market_timing_spec cr,
    exchange_holidays := fieldOr getStrList cr "exchange_holidays" [] }

theorem except_pure_eq {ε α : Type} (a : α) : (pure a : Except ε α) = .ok a := rfl

theorem except_error_bind {ε α β : Type} (m : ε) (f : α → Except ε β) :
    (Except.error m >>= f : Except ε β) = .error m := rfl

theorem except_ok_bind {ε α β : Type} (a : α) (f : α → Except ε β) :
    (Except.ok a >>= f : Except ε β) = f a := rfl

theorem except_bind_ok {ε α β : Type} {e : Except ε α} {f : α → Except ε β} {b : β} :
    e >>= f = .ok b ↔ ∃ a, e = .ok a ∧ f a = .ok b := by
  cases e with
  | error m => simp [except_error_bind]
  | ok a => simp [except_ok_bind]

theorem except_error_map {ε α β : Type} (g : α → β) (m : ε) :
    (Except.error m : Except ε α).map g = .error m := rfl

theorem except_ok_map {ε α β : Type} (g : α → β) (a : α) :
    (Except.ok a : Except ε α).map g = .ok (g a) := rfl

theorem optStep_none {α : Type} (f : JVal → Except String α) : optStep f none = .ok none := rfl

theorem optStep_some {α : Type} (f : JVal → Except String α) (v : JVal) :
    optStep f (some v) = (f v).map some := rfl

/-- A successful optional-domain step produces a present domain exactly
when the key was present. -/
theorem optStep_ok_isSome {α : Type} {f : JVal → Except String α} {o : Option JVal}
    {r : Option α} (h : optStep f o = .ok r) : r.isSome = o.isSome := by
  cases o with
  | none => rw [optStep_none] at h; cases h; rfl
  | some v =>
    rw [optStep_some] at h
    cases hf : f v with
    | error m => rw [hf, except_error_map] at h; cases h
    | ok a => rw [hf, except_ok_map] at h; cases h; rfl

theorem optStep_some_ok {α : Type} {f : JVal → Except String α} {v : JVal} {a : α}
    (h : optStep f (some v) = .ok (some a)) : f v = .ok a := by
  rw [optStep_some] at h
  cases hf : f v with
  | error m => rw [hf, except_error_map] at h; cases h
  | ok b =>
    rw [hf, except_ok_map] at h
    injection h with h'
    injection h' with h''
    rw [← h'']

theorem jvalue_lookup_none {α : Type} {kvs : List (String × JVal)} {k : String}
    (h : kvs.lookup k = none) (get : JVal → Except String α) (d : α) :
    jvalue (JVal.obj kvs) k get d = .ok d := by
  simp only [jvalue]
  rw [h]

theorem jvalue_lookup_some {α : Type} {kvs : List (String × JVal)} {k : String} {w : JVal}
    (h : kvs.lookup k = some w) (get : JVal → Except String α) (d : α) :
    jvalue (JVal.obj kvs) k get d = get w := by
  simp only [jvalue]
  rw [h]

theorem jvalue_not_object {α : Type} {v : JVal} (h : v.isObject = false) (k : String)
    (get : JVal → Except String α) (d : α) :
    jvalue v k get d = .error "cannot use value with non-object" := by
  cases v <;> first | rfl | (simp [JVal.isObject] at h)

theorem find?_obj (kvs : List (String × JVal)) (k : String) :
    JVal.find? (JVal.obj kvs) k = kvs.lookup k := rfl

/-- Inversion of a successful parse: each domain member of the final
aggregate is the output of its domain step. -/
theorem parse_json_ok {j : JVal} {s s' : config} (h : parse_json j s = (true, s')) :
    parse_data_paths (j.find? "data_paths") = .ok s'.data_paths_config ∧
    parse_data_scope (j.find? "data_scope") = .ok s'.data_scope_config ∧
    parse_symbol_registry (j.find? "symbol_registry") = .ok s'.symbol_registry_config ∧
    parse_symbol_matching (j.find? "symbol_matching") = .ok s'.symbol_matching_config ∧
    parse_preprocessing (j.find? "preprocessing") = .ok s'.preprocessing_config ∧
    parse_acceleration (j.find? "acceleration") = .ok s'.acceleration_config ∧
    parse_logger (j.find? "logger") = .ok s'.logger_config ∧
    parse_export (j.find? "export") = .ok s'.export_config_ptr ∧
    parse_stream_logging (j.find? "stream_logging") = .ok s'.stream_logging_config ∧
    parse_execution (j.find? "execution") = .ok s'.execution_config ∧
    parse_post_compute (j.find? "post_compute") = .ok s'.post_compute_config ∧
    parse_market_constants (j.find? "market_constants") = .ok s'.market_constants_config := by
  unfold parse_json at h
  split at h
  · simp at h
  rename_i v1 h1
  split at h
  · simp at h
  rename_i v2 h2
  split at h
  · simp at h
  rename_i v3 h3
  split at h
  · simp at h
  rename_i v4 h4
  split at h
  · simp at h
  rename_i v5 h5
  split at h
  · simp at h
  rename_i v6 h6
  split at h
  · simp at h
  rename_i v7 h7
  split at h
  · simp at h
  rename_i v8 h8
  split at h
  · simp at h
  rename_i v9 h9
  split at h
  · simp at h
  rename_i v10 h10
  split at h
  · simp at h
  rename_i v11 h11
  split at h
  · simp at h
  rename_i v12 h12
  obtain ⟨-, rfl⟩ := (Prod.mk.injEq _ _ _ _).mp h
  exact ⟨h1, h2, h3, h4, h5, h6, h7, h8, h9, h10, h11, h12⟩

/-- The market-timing member of a successfully mapped `market_constants`
is the output of the `trading_schedule` block. -/
theorem market_constants_timing {cr : JVal} {c : market_constants}
    (h : parse_market_constants_obj cr = .ok c) :
    parse_market_timing cr = .ok c.market_timing := by
  simp only [parse_market_constants_obj, except_bind_ok, except_pure_eq,
    Except.ok.injEq] at h
  obtain ⟨vu, hvu, se, hse, ect, hect, cm, hcm, nm, hnm, am, ham, mt, hmt, eh, heh, hc⟩ := h
  subst hc
  exact hmt

/-- When `trading_schedule` is absent or not an object, its block is
skipped and the market timing keeps its value-initialized state. -/
theorem market_timing_skipped {cr : JVal} {t : marketTiming}
    (h : parse_market_timing cr = .ok t)
    (hnone : cr.find? "trading_schedule" = none ∨
      ∃ mt, cr.find? "trading_schedule" = some mt ∧ mt.isObject = false) :
    t = {} := by
  unfold parse_market_timing at h
  split at h
  · rename_i mt hmt
    rcases hnone with hn | ⟨mt', hmt', hm'⟩
    · rw [hn] at hmt; cases hmt
    · rw [hmt'] at hmt
      injection hmt with he
      subst he
      rw [hm'] at h
      simp only [Bool.false_eq_true, if_false, except_pure_eq, Except.ok.injEq] at h
      exact h.symm
  · rename_i hmt
    rw [except_pure_eq] at h
    injection h with h'
    exact h'.symm

/-- On an object `trading_schedule`, the timing fields come from the two
coercion rules. -/
theorem market_timing_fields {cr mt : JVal} {t : marketTiming}
    (hts : cr.find? "trading_schedule" = some mt) (hobj : mt.isObject = true)
    (h : parse_market_timing cr = .ok t) :
    minutes_per_session_of mt = .ok t.minutes_per_session ∧
    sessions_per_year_of mt = .ok t.sessions_per_year := by
  unfold parse_market_timing at h
  split at h
  · rename_i mt' hmt'
    rw [hts] at hmt'
    injection hmt' with he
    subst he
    rw [if_pos hobj] at h
    simp only [except_bind_ok, except_pure_eq, Except.ok.injEq] at h
    obtain ⟨so, hso, sc, hsc, mv, hmv, sy, hsy, hc⟩ := h
    subst hc
    exact ⟨hmv, hsy⟩
  · rename_i hmt'
    rw [hts] at hmt'
    cases hmt'

/-- Characterization of the `minutes_per_session` coercion on an object
schedule: a present `minutes_per_session` wins and is read as a float
truncated to int; otherwise `minutes_per_day` is read as int; otherwise
the result is 0. -/
theorem minutes_of_spec {kvs : List (String × JVal)} {n : Int}
    (h : minutes_per_session_of (JVal.obj kvs) = .ok n) :
    (∀ v q, kvs.lookup "minutes_per_session" = some v → getFloat v = .ok q →
      n = ratTrunc q) ∧
    (kvs.lookup "minutes_per_session" = none → ∀ v m,
      kvs.lookup "minutes_per_day" = some v → getInt v = .ok m → n = m) ∧
    (kvs.lookup "minutes_per_session" = none → kvs.lookup "minutes_per_day" = none →
      n = 0) := by
  unfold minutes_per_session_of at h
  split at h
  · rename_i w hw
    rw [find?_obj] at hw
    refine ⟨?_, ?_, ?_⟩
    · intro v q hv hq
      rw [jvalue_lookup_some hv getFloat 0, hq, except_ok_bind, except_pure_eq] at h
      injection h with h'
      exact h'.symm
    · intro hnone; rw [hnone] at hw; cases hw
    · intro hnone; rw [hnone] at hw; cases hw
  · rename_i hw
    rw [find?_obj] at hw
    refine ⟨?_, ?_, ?_⟩
    · intro v q hv hq; rw [hv] at hw; cases hw
    · intro hnone v m hv hm
      rw [jvalue_lookup_some hv getInt 0, hm] at h
      injection h with h'
      exact h'.symm
    · intro hnone hday
      rw [jvalue_lookup_none hday getInt 0] at h
      injection h with h'
      exact h'.symm

/-- Characterization of the `sessions_per_year` fallback on an object
schedule: `sessions_per_year` if present, else `trading_days_per_year`,
else 252. -/
theorem sessions_of_spec {kvs : List (String × JVal)} {n : Int}
    (h : sessions_per_year_of (JVal.obj kvs) = .ok n) :
    (∀ v m, kvs.lookup "sessions_per_year" = some v → getInt v = .ok m → n = m) ∧
    (kvs.lookup "sessions_per_year" = none → ∀ v m,
      kvs.lookup "trading_days_per_year" = some v → getInt v = .ok m → n = m) ∧
    (kvs.lookup "sessions_per_year" = none → kvs.lookup "trading_days_per_year" = none →
      n = 252) := by
  unfold sessions_per_year_of at h
  rw [except_bind_ok] at h
  obtain ⟨d, hd, hs⟩ := h
  refine ⟨?_, ?_, ?_⟩
  · intro v m hv hm
    rw [jvalue_lookup_some hv getInt d, hm] at hs
    injection hs with h'
    exact h'.symm
  · intro hnone v m hv hm
    rw [jvalue_lookup_none hnone getInt d] at hs
    injection hs with h'
    subst h'
    rw [jvalue_lookup_some hv getInt 252, hm] at hd
    injection hd with h''
    exact h''.symm
  · intro hnone hday
    rw [jvalue_lookup_none hnone getInt d] at hs
    injection hs with h'
    subst h'
    rw [jvalue_lookup_none hday getInt 252] at hd
    injection hd with h''
    exact h''.symm

theorem jvalue_ok_fieldOr {α : Type} {kvs : List (String × JVal)} {k : String}
    {get : JVal → Except String α} {d a : α}
    (h : jvalue (JVal.obj kvs) k get d = .ok a) : a = fieldOr get (JVal.obj kvs) k d := by
  unfold fieldOr
  rw [find?_obj]
  cases hl : kvs.lookup k with
  | none =>
    rw [jvalue_lookup_none hl] at h
    injection h with h'
    exact h'.symm
  | some w =>
    rw [jvalue_lookup_some hl] at h
    simp only [h]

theorem optStep_some_spec {α : Type} {f : JVal → Except String α} {v : JVal} {r : Option α}
    (h : optStep f (some v) = .ok r) : ∃ c, r = some c ∧ f v = .ok c := by
  cases r with
  | none =>
    have hs := optStep_ok_isSome h
    simp at hs
  | some c => exact ⟨c, rfl, optStep_some_ok h⟩


theorem parse_data_paths_obj_spec {v : JVal} {c : data_paths}
    (h : parse_data_paths_obj v = .ok c) : c = data_paths_spec v := by
  cases v
  case obj kvs =>
    simp only [parse_data_paths_obj, except_bind_ok, except_pure_eq, Except.ok.injEq] at h
    obtain ⟨x1, hx1, x2, hx2, x3, hx3, x4, hx4, hc⟩ := h
    subst hc
    unfold data_paths_spec
    rw [jvalue_ok_fieldOr hx1, jvalue_ok_fieldOr hx2, jvalue_ok_fieldOr hx4, jvalue_ok_fieldOr hx3]
  all_goals simp [parse_data_paths_obj, jvalue, except_error_bind] at h


theorem parse_data_scope_obj_spec {v : JVal} {c : data_scope}
    (h : parse_data_scope_obj v = .ok c) : c = data_scope_spec v := by
  cases v
  case obj kvs =>
    simp only [parse_data_scope_obj, except_bind_ok, except_pure_eq, Except.ok.injEq] at h
    obtain ⟨x1, hx1, x2, hx2, x3, hx3, x4, hx4, x5, hx5, hc⟩ := h
    subst hc
    unfold data_scope_spec
    rw [jvalue_ok_fieldOr hx1, jvalue_ok_fieldOr hx2, jvalue_ok_fieldOr hx3, jvalue_ok_fieldOr hx4, jvalue_ok_fieldOr hx5]
  all_goals simp [parse_data_scope_obj, jvalue, except_error_bind] at h


theorem parse_symbol_matching_obj_spec {v : JVal} {c : symbol_matching}
    (h : parse_symbol_matching_obj v = .ok c) : c = symbol_matching_spec v := by
  cases v
  case obj kvs =>
    simp only [parse_symbol_matching_obj, except_bind_ok, except_pure_eq, Except.ok.injEq] at h
    obtain ⟨x1, hx1, x2, hx2, x3, hx3, x4, hx4, x5, hx5, hc⟩ := h
    subst hc
    unfold symbol_matching_spec
    rw [jvalue_ok_fieldOr hx1, jvalue_ok_fieldOr hx2, jvalue_ok_fieldOr hx3, jvalue_ok_fieldOr hx4, jvalue_ok_fieldOr hx5]
  all_goals simp [parse_symbol_matching_obj, jvalue, except_error_bind] at h


theorem parse_preprocessing_obj_spec {v : JVal} {c : preprocessing}
    (h : parse_preprocessing_obj v = .ok c) : c = preprocessing_spec v := by
  cases v
  case obj kvs =>
    simp only [parse_preprocessing_obj, except_bind_ok, except_pure_eq, Except.ok.injEq] at h
    obtain ⟨x1, hx1, x2, hx2, x3, hx3, x4, hx4, hc⟩ := h
    subst hc
    unfold preprocessing_spec
    rw [jvalue_ok_fieldOr hx1, jvalue_ok_fieldOr hx2, jvalue_ok_fieldOr hx3, jvalue_ok_fieldOr hx4]
  all_goals simp [parse_preprocessing_obj, jvalue, except_error_bind] at h


theorem parse_acceleration_obj_spec {v : JVal} {c : acceleration}
    (h : parse_acceleration_obj v = .ok c) : c = acceleration_spec v := by
  cases v
  case obj kvs =>
    simp only [parse_acceleration_obj, except_bind_ok, except_pure_eq, Except.ok.injEq] at h
    obtain ⟨x1, hx1, hc⟩ := h
    subst hc
    unfold acceleration_spec
    rw [jvalue_ok_fieldOr hx1]
  all_goals simp [parse_acceleration_obj, jvalue, except_error_bind] at h


theorem parse_logger_obj_spec {v : JVal} {c : logger}
    (h : parse_logger_obj v = .ok c) : c = logger_spec v := by
  cases v
  case obj kvs =>
    simp only [parse_logger_obj, except_bind_ok, except_pure_eq, Except.ok.injEq] at h
    obtain ⟨x1, hx1, x2, hx2, x3, hx3, x4, hx4, hc⟩ := h
    subst hc
    unfold logger_spec
    rw [jvalue_ok_fieldOr hx1, jvalue_ok_fieldOr hx2, jvalue_ok_fieldOr hx3, jvalue_ok_fieldOr hx4]
  all_goals simp [parse_logger_obj, jvalue, except_error_bind] at h


theorem parse_export_obj_spec {v : JVal} {c : export_config}
    (h : parse_export_obj v = .ok c) : c = export_spec v := by
  cases v
  case obj kvs =>
    simp only [parse_export_obj, except_bind_ok, except_pure_eq, Except.ok.injEq] at h
    obtain ⟨x1, hx1, x2, hx2, hc⟩ := h
    subst hc
    unfold export_spec
    rw [jvalue_ok_fieldOr hx1, jvalue_ok_fieldOr hx2]
  all_goals simp [parse_export_obj, jvalue, except_error_bind] at h


theorem parse_stream_logging_obj_spec {v : JVal} {c : stream_logging}
    (h : parse_stream_logging_obj v = .ok c) : c = stream_logging_spec v := by
  cases v
  case obj kvs =>
    simp only [parse_stream_logging_obj, except_bind_ok, except_pure_eq, Except.ok.injEq] at h
    obtain ⟨x1, hx1, x2, hx2, x3, hx3, hc⟩ := h
    subst hc
    unfold stream_logging_spec
    rw [jvalue_ok_fieldOr hx1, jvalue_ok_fieldOr hx2, jvalue_ok_fieldOr hx3]
  all_goals simp [parse_stream_logging_obj, jvalue, except_error_bind] at h


theorem parse_execution_obj_spec {v : JVal} {c : execution}
    (h : parse_execution_obj v = .ok c) : c = execution_spec v := by
  cases v
  case obj kvs =>
    simp only [parse_execution_obj, except_bind_ok, except_pure_eq, Except.ok.injEq] at h
    obtain ⟨x1, hx1, x2, hx2, x3, hx3, x4, hx4, x5, hx5, x6, hx6, x7, hx7, x8, hx8, x9, hx9, x10, hx10, x11, hx11, x12, hx12, x13, hx13, x14, hx14, x15, hx15, x16, hx16, x17, hx17, x18, hx18, x19, hx19, x20, hx20, x21, hx21, x22, hx22, x23, hx23, x24, hx24, x25, hx25, x26, hx26, x27, hx27, x28, hx28, x29, hx29, x30, hx30, x31, hx31, x32, hx32, x33, hx33, x34, hx34, x35, hx35, x36, hx36, x37, hx37, x38, hx38, x39, hx39, x40, hx40, x41, hx41, hc⟩ := h
    subst hc
    unfold execution_spec
    rw [jvalue_ok_fieldOr hx1, jvalue_ok_fieldOr hx2, jvalue_ok_fieldOr hx3, jvalue_ok_fieldOr hx4, jvalue_ok_fieldOr hx5, jvalue_ok_fieldOr hx6, jvalue_ok_fieldOr hx7, jvalue_ok_fieldOr hx8, jvalue_ok_fieldOr hx9, jvalue_ok_fieldOr hx10, jvalue_ok_fieldOr hx11, jvalue_ok_fieldOr hx12, jvalue_ok_fieldOr hx13, jvalue_ok_fieldOr hx14, jvalue_ok_fieldOr hx15, jvalue_ok_fieldOr hx16, jvalue_ok_fieldOr hx17, jvalue_ok_fieldOr hx18, jvalue_ok_fieldOr hx19, jvalue_ok_fieldOr hx20, jvalue_ok_fieldOr hx21, jvalue_ok_fieldOr hx22, jvalue_ok_fieldOr hx23, jvalue_ok_fieldOr hx24, jvalue_ok_fieldOr hx25, jvalue_ok_fieldOr hx26, jvalue_ok_fieldOr hx27, jvalue_ok_fieldOr hx28, jvalue_ok_fieldOr hx29, jvalue_ok_fieldOr hx30, jvalue_ok_fieldOr hx31, jvalue_ok_fieldOr hx32, jvalue_ok_fieldOr hx33, jvalue_ok_fieldOr hx34, jvalue_ok_fieldOr hx35, jvalue_ok_fieldOr hx36, jvalue_ok_fieldOr hx37, jvalue_ok_fieldOr hx38, jvalue_ok_fieldOr hx39, jvalue_ok_fieldOr hx40, jvalue_ok_fieldOr hx41]
  all_goals simp [parse_execution_obj, jvalue, except_error_bind] at h


theorem parse_post_compute_obj_spec {v : JVal} {c : post_compute}
    (h : parse_post_compute_obj v = .ok c) : c = post_compute_spec v := by
  cases v
  case obj kvs =>
    simp only [parse_post_compute_obj, except_bind_ok, except_pure_eq, Except.ok.injEq] at h
    obtain ⟨x1, hx1, x2, hx2, hc⟩ := h
    subst hc
    unfold post_compute_spec
    rw [jvalue_ok_fieldOr hx1, jvalue_ok_fieldOr hx2]
  all_goals simp [parse_post_compute_obj, jvalue, except_error_bind] at h


theorem registry_total :
    ∀ (entries : List (String × JVal)) (acc reg : List (String × List (String × String))),
      build_registry entries acc = .ok reg → reg = registry_entries_or entries acc := by
  intro entries
  induction entries with
  | nil =>
    intro acc reg h
    simp only [build_registry] at h
    injection h with h'
    simp only [registry_entries_or]
    exact h'.symm
  | cons kv rest ih =>
    intro acc reg h
    obtain ⟨k, v⟩ := kv
    simp only [build_registry] at h
    simp only [registry_entries_or]
    by_cases ho : v.isObject = true
    · rw [if_pos ho] at h ⊢
      cases hg : getStrMap v with
      | error m => rw [hg] at h; cases h
      | ok d =>
        rw [hg] at h
        rw [ih _ _ h]
    · rw [if_neg ho] at h ⊢
      exact ih _ _ h

theorem parse_symbol_registry_obj_spec {v : JVal} {c : symbol_registry}
    (h : parse_symbol_registry_obj v = .ok c) : c = { mappings := registryOr v } := by
  cases v
  case obj kvs =>
    simp only [parse_symbol_registry_obj] at h
    cases hb : build_registry kvs [] with
    | error m => rw [hb, except_error_map] at h; cases h
    | ok mp =>
      rw [hb, except_ok_map] at h
      injection h with h'
      subst h'
      simp only [registryOr]
      rw [registry_total kvs [] mp hb]
  all_goals
    simp only [parse_symbol_registry_obj] at h
    injection h with h'
    exact h'.symm

theorem month_map_of_ok {cr : JVal} {k : String} {d : List (String × String)}
    (h : month_map_of cr k = .ok d) : d = month_map_or cr k := by
  unfold month_map_of at h
  cases hf : cr.find? k with
  | none =>
    simp only [hf] at h
    rw [except_pure_eq] at h
    injection h with h'
    simp only [month_map_or, hf]
    exact h'.symm
  | some v =>
    simp only [hf] at h
    simp only [month_map_or, hf]
    by_cases ho : v.isObject = true
    · rw [if_pos ho] at h ⊢
      cases hg : getStrMap v with
      | error m => rw [hg] at h; cases h
      | ok e =>
        rw [hg] at h
        injection h with h'
        simp only [hg]
        exact h'.symm
    · rw [if_neg ho] at h ⊢
      rw [except_pure_eq] at h
      injection h with h'
      exact h'.symm

theorem minutes_of_ok {kvs : List (String × JVal)} {n : Int}
    (h : minutes_per_session_of (JVal.obj kvs) = .ok n) : n = minutes_or (JVal.obj kvs) := by
  unfold minutes_per_session_of at h
  unfold minutes_or
  cases hf : JVal.find? (JVal.obj kvs) "minutes_per_session" with
  | none =>
    simp only [hf] at h
    exact jvalue_ok_fieldOr h
  | some w =>
    simp only [hf] at h
    simp only [except_bind_ok, except_pure_eq, Except.ok.injEq] at h
    obtain ⟨q, hq, hn⟩ := h
    subst hn
    rw [jvalue_ok_fieldOr hq]

theorem sessions_of_ok {kvs : List (String × JVal)} {n : Int}
    (h : sessions_per_year_of (JVal.obj kvs) = .ok n) : n = sessions_or (JVal.obj kvs) := by
  unfold sessions_per_year_of at h
  unfold sessions_or
  simp only [except_bind_ok] at h
  obtain ⟨d, hd, hs⟩ := h
  rw [jvalue_ok_fieldOr hs, jvalue_ok_fieldOr hd]

theorem market_timing_spec_ok {cr : JVal} {t : marketTiming}
    (h : parse_market_timing cr = .ok t) : t = market_timing_spec cr := by
  unfold parse_market_timing at h
  cases hf : cr.find? "trading_schedule" with
  | none =>
    simp only [hf] at h
    rw [except_pure_eq] at h
    injection h with h'
    simp only [market_timing_spec, hf]
    exact h'.symm
  | some mt =>
    simp only [hf] at h
    simp only [market_timing_spec, hf]
    by_cases ho : mt.isObject = true
    · rw [if_pos ho] at h ⊢
      cases mt
      all_goals simp only [JVal.isObject, Bool.false_eq_true] at ho
      rename_i kvs
      simp only [except_bind_ok, except_pure_eq, Except.ok.injEq] at h
      obtain ⟨so, hso, sc, hsc, mv, hmv, sy, hsy, hc⟩ := h
      subst hc
      rw [jvalue_ok_fieldOr hso, jvalue_ok_fieldOr hsc, minutes_of_ok hmv,
        sessions_of_ok hsy]
    · rw [if_neg ho] at h ⊢
      rw [except_pure_eq] at h
      injection h with h'
      exact h'.symm

theorem parse_market_constants_obj_spec {v : JVal} {c : market_constants}
    (h : parse_market_constants_obj v = .ok c) : c = market_constants_spec v := by
  cases v
  case obj kvs =>
    simp only [parse_market_constants_obj, except_bind_ok, except_pure_eq,
      Except.ok.injEq] at h
    obtain ⟨vu, hvu, se, hse, ect, hect, cm, hcm, nm, hnm, am, ham, mt, hmt, eh, heh, hc⟩ := h
    subst hc
    unfold market_constants_spec
    rw [jvalue_ok_fieldOr hvu, jvalue_ok_fieldOr hse, jvalue_ok_fieldOr hect,
      month_map_of_ok hcm, month_map_of_ok hnm, month_map_of_ok ham,
      market_timing_spec_ok hmt, jvalue_ok_fieldOr heh]
  all_goals simp [parse_market_constants_obj, jvalue, except_error_bind] at h


theorem parse_data_paths_not_object {v : JVal} (h : v.isObject = false) :
    parse_data_paths (some v) = .error "cannot use value with non-object" := by
  have hv : parse_data_paths_obj v = .error "cannot use value with non-object" := by
    unfold parse_data_paths_obj
    rw [jvalue_not_object h, except_error_bind]
  unfold parse_data_paths
  rw [optStep_some, hv, except_error_map]


theorem parse_data_scope_not_object {v : JVal} (h : v.isObject = false) :
    parse_data_scope (some v) = .error "cannot use value with non-object" := by
  have hv : parse_data_scope_obj v = .error "cannot use value with non-object" := by
    unfold parse_data_scope_obj
    rw [jvalue_not_object h, except_error_bind]
  unfold parse_data_scope
  rw [optStep_some, hv, except_error_map]


theorem parse_symbol_matching_not_object {v : JVal} (h : v.isObject = false) :
    parse_symbol_matching (some v) = .error "cannot use value with non-object" := by
  have hv : parse_symbol_matching_obj v = .error "cannot use value with non-object" := by
    unfold parse_symbol_matching_obj
    rw [jvalue_not_object h, except_error_bind]
  unfold parse_symbol_matching
  rw [optStep_some, hv, except_error_map]


theorem parse_preprocessing_not_object {v : JVal} (h : v.isObject = false) :
    parse_preprocessing (some v) = .error "cannot use value with non-object" := by
  have hv : parse_preprocessing_obj v = .error "cannot use value with non-object" := by
    unfold parse_preprocessing_obj
    rw [jvalue_not_object h, except_error_bind]
  unfold parse_preprocessing
  rw [optStep_some, hv, except_error_map]


theorem parse_acceleration_not_object {v : JVal} (h : v.isObject = false) :
    parse_acceleration (some v) = .error "cannot use value with non-object" := by
  have hv : parse_acceleration_obj v = .error "cannot use value with non-object" := by
    unfold parse_acceleration_obj
    rw [jvalue_not_object h, except_error_bind]
  unfold parse_acceleration
  rw [optStep_some, hv, except_error_map]


theorem parse_logger_not_object {v : JVal} (h : v.isObject = false) :
    parse_logger (some v) = .error "cannot use value with non-object" := by
  have hv : parse_logger_obj v = .error "cannot use value with non-object" := by
    unfold parse_logger_obj
    rw [jvalue_not_object h, except_error_bind]
  unfold parse_logger
  rw [optStep_some, hv, except_error_map]


theorem parse_export_not_object {v : JVal} (h : v.isObject = false) :
    parse_export (some v) = .error "cannot use value with non-object" := by
  have hv : parse_export_obj v = .error "cannot use value with non-object" := by
    unfold parse_export_obj
    rw [jvalue_not_object h, except_error_bind]
  unfold parse_export
  rw [optStep_some, hv, except_error_map]


theorem parse_stream_logging_not_object {v : JVal} (h : v.isObject = false) :
    parse_stream_logging (some v) = .error "cannot use value with non-object" := by
  have hv : parse_stream_logging_obj v = .error "cannot use value with non-object" := by
    unfold parse_stream_logging_obj
    rw [jvalue_not_object h, except_error_bind]
  unfold parse_stream_logging
  rw [optStep_some, hv, except_error_map]


theorem parse_execution_not_object {v : JVal} (h : v.isObject = false) :
    parse_execution (some v) = .error "cannot use value with non-object" := by
  have hv : parse_execution_obj v = .error "cannot use value with non-object" := by
    simp only [parse_execution_obj]
    rw [jvalue_not_object h, except_error_bind]
  unfold parse_execution
  rw [optStep_some, hv, except_error_map]


theorem parse_post_compute_not_object {v : JVal} (h : v.isObject = false) :
    parse_post_compute (some v) = .error "cannot use value with non-object" := by
  have hv : parse_post_compute_obj v = .error "cannot use value with non-object" := by
    unfold parse_post_compute_obj
    rw [jvalue_not_object h, except_error_bind]
  unfold parse_post_compute
  rw [optStep_some, hv, except_error_map]


theorem parse_market_constants_not_object {v : JVal} (h : v.isObject = false) :
    parse_market_constants (some v) = .error "cannot use value with non-object" := by
  have hv : parse_market_constants_obj v = .error "cannot use value with non-object" := by
    unfold parse_market_constants_obj
    rw [jvalue_not_object h, except_error_bind]
  unfold parse_market_constants
  rw [optStep_some, hv, except_error_map]


theorem month_map_or_not_object {cr : JVal} {k : String} {v : JVal}
    (hf : cr.find? k = some v) (h : v.isObject = false) : month_map_or cr k = [] := by
  simp [month_map_or, hf, h]

theorem market_timing_spec_not_object {cr : JVal} {v : JVal}
    (hf : cr.find? "trading_schedule" = some v) (h : v.isObject = false) :
    market_timing_spec cr = {} := by
  simp [market_timing_spec, hf, h]

theorem registryOr_not_object {v : JVal} (h : v.isObject = false) : registryOr v = [] := by
  cases v <;> first | rfl | (simp [JVal.isObject] at h)

theorem parse_symbol_registry_obj_not_object {v : JVal} (h : v.isObject = false) :
    parse_symbol_registry_obj v = .ok { mappings := [] } := by
  cases v <;> first | rfl | (simp [JVal.isObject] at h)

/-- Claim C8: parsing the empty document succeeds and yields an
aggregate configuration in which all 12 domains are absent. -/
theorem empty_document_all_domains_absent :
    parse_json (JVal.obj []) config.empty = (true, config.empty) ∧
    config.empty.data_paths_config = none ∧
    config.empty.data_scope_config = none ∧
    config.empty.symbol_registry_config = none ∧
    config.empty.symbol_matching_config = none ∧
    config.empty.preprocessing_config = none ∧
    config.empty.acceleration_config = none ∧
    config.empty.logger_config = none ∧
    config.empty.export_config_ptr = none ∧
    config.empty.stream_logging_config = none ∧
    config.empty.execution_config = none ∧
    config.empty.post_compute_config = none ∧
    config.empty.market_constants_config = none :=
  ⟨rfl, rfl, rfl, rfl, rfl, rfl, rfl, rfl, rfl, rfl, rfl, rfl, rfl⟩

/-- Claim C10: two documents that agree on the 12 recognized top-level
domain keys parse to the same result and field-for-field equal
aggregates; additional unrecognized top-level keys are ignored without
error. -/
theorem unrecognized_keys_ignored (j1 j2 : JVal) (s : config)
    (h1 : j1.find? "data_paths" = j2.find? "data_paths")
    (h2 : j1.find? "data_scope" = j2.find? "data_scope")
    (h3 : j1.find? "symbol_registry" = j2.find? "symbol_registry")
    (h4 : j1.find? "symbol_matching" = j2.find? "symbol_matching")
    (h5 : j1.find? "preprocessing" = j2.find? "preprocessing")
    (h6 : j1.find? "acceleration" = j2.find? "acceleration")
    (h7 : j1.find? "logger" = j2.find? "logger")
    (h8 : j1.find? "export" = j2.find? "export")
    (h9 : j1.find? "stream_logging" = j2.find? "stream_logging")
    (h10 : j1.find? "execution" = j2.find? "execution")
    (h11 : j1.find? "post_compute" = j2.find? "post_compute")
    (h12 : j1.find? "market_constants" = j2.find? "market_constants") :
    parse_json j1 s = parse_json j2 s := by
  unfold parse_json
  rw [h1, h2, h3, h4, h5, h6, h7, h8, h9, h10, h11, h12]

/-- Witness for C10: a document with an extra unrecognized top-level key
parses identically to the document without it. -/
theorem unrecognized_keys_ignored_witness :
    parse_json (JVal.obj [("export", JVal.obj []), ("extra_key", JVal.int 1)]) config.empty =
      parse_json (JVal.obj [("export", JVal.obj [])]) config.empty :=
  unrecognized_keys_ignored _ _ _ rfl rfl rfl rfl rfl rfl rfl rfl rfl rfl rfl rfl

/-- Counterexample to claim C2 as stated: parsing a document whose
market_constants object has no trading_schedule succeeds with a present
domain, yet the nested market_timing field sessions_per_year holds 0,
which is neither a supplied value nor the documented default 252 given
by the spec's reading of the sessions_per_year rule. -/
theorem market_timing_documented_default_cex :
    (parse_json (JVal.obj [("market_constants", JVal.obj [])]) config.empty).1 = true ∧
    ((parse_json (JVal.obj [("market_constants", JVal.obj [])])
        config.empty).2.market_constants_config.map
      (fun c => c.market_timing.sessions_per_year)) = some 0 ∧
    sessions_per_year_spec (JVal.obj []) = .ok 252 ∧
    (0 : Int) ≠ 252 :=
  ⟨rfl, rfl, rfl, by decide⟩

/-- Claim C2 (amended): for a successful parse, each of the 12 aggregate
members is present exactly when its top-level key is present (an absent
key yields an unset member, never a default-populated one); and every
present domain value equals the field-by-field supplied-or-default
reading of its sub-document — each field holding its supplied, correctly
typed value when its key is present and its documented default when
absent — except that when market_constants is present but its
trading_schedule is absent or not an object, the nested market_timing
stays in its value-initialized state (sessions_per_year = 0 rather than
the documented 252). -/
theorem domain_presence_invariant {j : JVal} {s s' : config}
    (h : parse_json j s = (true, s')) :
    (s'.data_paths_config.isSome = (j.find? "data_paths").isSome ∧
     s'.data_scope_config.isSome = (j.find? "data_scope").isSome ∧
     s'.symbol_registry_config.isSome = (j.find? "symbol_registry").isSome ∧
     s'.symbol_matching_config.isSome = (j.find? "symbol_matching").isSome ∧
     s'.preprocessing_config.isSome = (j.find? "preprocessing").isSome ∧
     s'.acceleration_config.isSome = (j.find? "acceleration").isSome ∧
     s'.logger_config.isSome = (j.find? "logger").isSome ∧
     s'.export_config_ptr.isSome = (j.find? "export").isSome ∧
     s'.stream_logging_config.isSome = (j.find? "stream_logging").isSome ∧
     s'.execution_config.isSome = (j.find? "execution").isSome ∧
     s'.post_compute_config.isSome = (j.find? "post_compute").isSome ∧
     s'.market_constants_config.isSome = (j.find? "market_constants").isSome) ∧
    (∀ v, j.find? "data_paths" = some v →
      s'.data_paths_config = some (data_paths_spec v)) ∧
    (∀ v, j.find? "data_scope" = some v →
      s'.data_scope_config = some (data_scope_spec v)) ∧
    (∀ v, j.find? "symbol_registry" = some v →
      s'.symbol_registry_config = some { mappings := registryOr v }) ∧
    (∀ v, j.find? "symbol_matching" = some v →
      s'.symbol_matching_config = some (symbol_matching_spec v)) ∧
    (∀ v, j.find? "preprocessing" = some v →
      s'.preprocessing_config = some (preprocessing_spec v)) ∧
    (∀ v, j.find? "acceleration" = some v →
      s'.acceleration_config = some (acceleration_spec v)) ∧
    (∀ v, j.find? "logger" = some v →
      s'.logger_config = some (logger_spec v)) ∧
    (∀ v, j.find? "export" = some v →
      s'.export_config_ptr = some (export_spec v)) ∧
    (∀ v, j.find? "stream_logging" = some v →
      s'.stream_logging_config = some (stream_logging_spec v)) ∧
    (∀ v, j.find? "execution" = some v →
      s'.execution_config = some (execution_spec v)) ∧
    (∀ v, j.find? "post_compute" = some v →
      s'.post_compute_config = some (post_compute_spec v)) ∧
    (∀ v, j.find? "market_constants" = some v →
      s'.market_constants_config = some (market_constants_spec v)) ∧
    (∀ cr c, j.find? "market_constants" = some cr →
      (cr.find? "trading_schedule" = none ∨
        ∃ mt, cr.find? "trading_schedule" = some mt ∧ mt.isObject = false) →
      s'.market_constants_config = some c → c.market_timing = {}) := by
  obtain ⟨h1, h2, h3, h4, h5, h6, h7, h8, h9, h10, h11, h12⟩ := parse_json_ok h
  refine ⟨⟨optStep_ok_isSome h1, optStep_ok_isSome h2, optStep_ok_isSome h3,
      optStep_ok_isSome h4, optStep_ok_isSome h5, optStep_ok_isSome h6,
      optStep_ok_isSome h7, optStep_ok_isSome h8, optStep_ok_isSome h9,
      optStep_ok_isSome h10, optStep_ok_isSome h11, optStep_ok_isSome h12⟩,
    ?_, ?_, ?_, ?_, ?_, ?_, ?_, ?_, ?_, ?_, ?_, ?_, ?_⟩
  · intro v hv
    rw [hv] at h1
    obtain ⟨c, hc, hfc⟩ := optStep_some_spec h1
    rw [hc, parse_data_paths_obj_spec hfc]
  · intro v hv
    rw [hv] at h2
    obtain ⟨c, hc, hfc⟩ := optStep_some_spec h2
    rw [hc, parse_data_scope_obj_spec hfc]
  · intro v hv
    rw [hv] at h3
    obtain ⟨c, hc, hfc⟩ := optStep_some_spec h3
    rw [hc, parse_symbol_registry_obj_spec hfc]
  · intro v hv
    rw [hv] at h4
    obtain ⟨c, hc, hfc⟩ := optStep_some_spec h4
    rw [hc, parse_symbol_matching_obj_spec hfc]
  · intro v hv
    rw [hv] at h5
    obtain ⟨c, hc, hfc⟩ := optStep_some_spec h5
    rw [hc, parse_preprocessing_obj_spec hfc]
  · intro v hv
    rw [hv] at h6
    obtain ⟨c, hc, hfc⟩ := optStep_some_spec h6
    rw [hc, parse_acceleration_obj_spec hfc]
  · intro v hv
    rw [hv] at h7
    obtain ⟨c, hc, hfc⟩ := optStep_some_spec h7
    rw [hc, parse_logger_obj_spec hfc]
  · intro v hv
    rw [hv] at h8
    obtain ⟨c, hc, hfc⟩ := optStep_some_spec h8
    rw [hc, parse_export_obj_spec hfc]
  · intro v hv
    rw [hv] at h9
    obtain ⟨c, hc, hfc⟩ := optStep_some_spec h9
    rw [hc, parse_stream_logging_obj_spec hfc]
  · intro v hv
    rw [hv] at h10
    obtain ⟨c, hc, hfc⟩ := optStep_some_spec h10
    rw [hc, parse_execution_obj_spec hfc]
  · intro v hv
    rw [hv] at h11
    obtain ⟨c, hc, hfc⟩ := optStep_some_spec h11
    rw [hc, parse_post_compute_obj_spec hfc]
  · intro v hv
    rw [hv] at h12
    obtain ⟨c, hc, hfc⟩ := optStep_some_spec h12
    rw [hc, parse_market_constants_obj_spec hfc]
  · intro cr c hcr hsched hc
    rw [hcr, hc] at h12
    exact market_timing_skipped (market_constants_timing (optStep_some_ok h12)) hsched

/-- Witness for C2 (amended) at the document with only an empty
market_constants object: the domain is present, another domain is
absent, the present domain equals its supplied-or-default reading, and
the market timing is value-initialized. -/
theorem domain_presence_invariant_witness :
    ((parse_json (JVal.obj [("market_constants", JVal.obj [])])
        config.empty).2.market_constants_config).isSome = true ∧
    ((parse_json (JVal.obj [("market_constants", JVal.obj [])])
        config.empty).2.data_paths_config).isSome = false ∧
    (parse_json (JVal.obj [("market_constants", JVal.obj [])])
        config.empty).2.market_constants_config =
      some (market_constants_spec (JVal.obj [])) ∧
    (((parse_json (JVal.obj [("market_constants", JVal.obj [])])
        config.empty).2.market_constants_config).getD {}).market_timing = {} := by
  have h := @domain_presence_invariant (JVal.obj [("market_constants", JVal.obj [])])
    config.empty
    ((parse_json (JVal.obj [("market_constants", JVal.obj [])]) config.empty).2) rfl
  refine ⟨(h.1.2.2.2.2.2.2.2.2.2.2.2).trans rfl, (h.1.1).trans rfl, ?_, ?_⟩
  · exact h.2.2.2.2.2.2.2.2.2.2.2.2.1 (JVal.obj []) rfl
  · exact h.2.2.2.2.2.2.2.2.2.2.2.2.2 (JVal.obj [])
      (((parse_json (JVal.obj [("market_constants", JVal.obj [])])
        config.empty).2.market_constants_config).getD {}) rfl (Or.inl rfl) rfl
/-- Claim C3: for a trading_schedule object inside market_constants, a
present minutes_per_session key is read as a floating-point number and
truncated to an integer, winning over minutes_per_day; when
minutes_per_session is absent, the integer minutes_per_day is used; when
both are absent the field is 0. -/
theorem minutes_per_session_alias (j : JVal) (s s' : config) (cr mt : JVal)
    (c : market_constants)
    (hmc : j.find? "market_constants" = some cr)
    (hts : cr.find? "trading_schedule" = some mt)
    (hobj : mt.isObject = true)
    (h : parse_json j s = (true, s'))
    (hc : s'.market_constants_config = some c) :
    (∀ v q, mt.find? "minutes_per_session" = some v → getFloat v = .ok q →
      c.market_timing.minutes_per_session = ratTrunc q) ∧
    (mt.find? "minutes_per_session" = none → ∀ v n,
      mt.find? "minutes_per_day" = some v → getInt v = .ok n →
      c.market_timing.minutes_per_session = n) ∧
    (mt.find? "minutes_per_session" = none → mt.find? "minutes_per_day" = none →
      c.market_timing.minutes_per_session = 0) := by
  have h12 := (parse_json_ok h).2.2.2.2.2.2.2.2.2.2.2
  rw [hmc, hc] at h12
  have htm := market_constants_timing (optStep_some_ok h12)
  have hf := (market_timing_fields hts hobj htm).1
  cases mt
  case obj kvs =>
    have hm := minutes_of_spec hf
    simp only [find?_obj]
    exact ⟨fun v q hv hq => hm.1 v q hv hq,
      fun hn v n hv hq => hm.2.1 hn v n hv hq,
      fun hn hd => hm.2.2 hn hd⟩
  all_goals simp [JVal.isObject] at hobj

/-- Witness for C3 at a schedule carrying minutes_per_session = 375.0
and minutes_per_day = 800: the parsed field is 375. -/
theorem minutes_per_session_alias_witness :
    (((parse_json doc_sched_alias config.empty).2.market_constants_config).getD
      {}).market_timing.minutes_per_session = 375 := by
  have h := minutes_per_session_alias doc_sched_alias config.empty
    (parse_json doc_sched_alias config.empty).2
    (JVal.obj [("trading_schedule",
      JVal.obj [("minutes_per_session", JVal.float 375), ("minutes_per_day", JVal.int 800)])])
    (JVal.obj [("minutes_per_session", JVal.float 375), ("minutes_per_day", JVal.int 800)])
    (((parse_json doc_sched_alias config.empty).2.market_constants_config).getD {})
    rfl rfl rfl rfl rfl
  exact (h.1 (JVal.float 375) 375 rfl rfl).trans (by decide)

/-- Claim C7: for a trading_schedule object, sessions_per_year is the
value of the sessions_per_year key if present, else the value of
trading_days_per_year if present, else 252. -/
theorem sessions_per_year_fallback (j : JVal) (s s' : config) (cr mt : JVal)
    (c : market_constants)
    (hmc : j.find? "market_constants" = some cr)
    (hts : cr.find? "trading_schedule" = some mt)
    (hobj : mt.isObject = true)
    (h : parse_json j s = (true, s'))
    (hc : s'.market_constants_config = some c) :
    (∀ v n, mt.find? "sessions_per_year" = some v → getInt v = .ok n →
      c.market_timing.sessions_per_year = n) ∧
    (mt.find? "sessions_per_year" = none → ∀ v n,
      mt.find? "trading_days_per_year" = some v → getInt v = .ok n →
      c.market_timing.sessions_per_year = n) ∧
    (mt.find? "sessions_per_year" = none → mt.find? "trading_days_per_year" = none →
      c.market_timing.sessions_per_year = 252) := by
  have h12 := (parse_json_ok h).2.2.2.2.2.2.2.2.2.2.2
  rw [hmc, hc] at h12
  have htm := market_constants_timing (optStep_some_ok h12)
  have hf := (market_timing_fields hts hobj htm).2
  cases mt
  case obj kvs =>
    have hm := sessions_of_spec hf
    simp only [find?_obj]
    exact ⟨fun v n hv hn => hm.1 v n hv hn,
      fun hnone v n hv hn => hm.2.1 hnone v n hv hn,
      fun hnone hday => hm.2.2 hnone hday⟩
  all_goals simp [JVal.isObject] at hobj

/-- Witness for C7 at a schedule carrying sessions_per_year = 300 and
trading_days_per_year = 240: the parsed field is 300. -/
theorem sessions_per_year_fallback_witness :
    (((parse_json doc_sched_sessions config.empty).2.market_constants_config).getD
      {}).market_timing.sessions_per_year = 300 := by
  have h := sessions_per_year_fallback doc_sched_sessions config.empty
    (parse_json doc_sched_sessions config.empty).2
    (JVal.obj [("trading_schedule",
      JVal.obj [("sessions_per_year", JVal.int 300), ("trading_days_per_year", JVal.int 240)])])
    (JVal.obj [("sessions_per_year", JVal.int 300), ("trading_days_per_year", JVal.int 240)])
    (((parse_json doc_sched_sessions config.empty).2.market_constants_config).getD {})
    rfl rfl rfl rfl rfl
  exact h.1 (JVal.int 300) 300 rfl rfl

/-- Counterexample to claim C1 as stated: on this document the parse
fails (returns false), and yet a domain value is retained in the config
object — the data_paths member is populated, not absent. -/
theorem no_partial_aggregate_cex :
    (parse_json (JVal.obj [("data_paths", JVal.obj []), ("data_scope", JVal.int 5)])
        config.empty).1 = false ∧
    (parse_json (JVal.obj [("data_paths", JVal.obj []), ("data_scope", JVal.int 5)])
        config.empty).2.data_paths_config ≠ none :=
  ⟨rfl, by decide⟩

/-- Claim C1 (amended): an uncaught error during the mapping pass makes
parse_json return false — the caller receives the failure outcome — but
the config object does not revert: there is a first failing domain, every
domain processed before it retains its just-assigned value in the config
object, and the failing domain together with all later ones keeps its
prior state, so a partially populated aggregate can remain on failure. -/
theorem parse_failure_retains_prior_domains (j : JVal) (s s' : config)
    (h : parse_json j s = (false, s')) :
    ((∃ m, parse_data_paths (j.find? "data_paths") = .error m) ∧
     s' = s) ∨
    (∃ v1, parse_data_paths (j.find? "data_paths") = .ok v1 ∧
     (∃ m, parse_data_scope (j.find? "data_scope") = .error m) ∧
     s' = { s with
        data_paths_config := v1 }) ∨
    (∃ v1, parse_data_paths (j.find? "data_paths") = .ok v1 ∧
     ∃ v2, parse_data_scope (j.find? "data_scope") = .ok v2 ∧
     (∃ m, parse_symbol_registry (j.find? "symbol_registry") = .error m) ∧
     s' = { s with
        data_paths_config := v1,
        data_scope_config := v2 }) ∨
    (∃ v1, parse_data_paths (j.find? "data_paths") = .ok v1 ∧
     ∃ v2, parse_data_scope (j.find? "data_scope") = .ok v2 ∧
     ∃ v3, parse_symbol_registry (j.find? "symbol_registry") = .ok v3 ∧
     (∃ m, parse_symbol_matching (j.find? "symbol_matching") = .error m) ∧
     s' = { s with
        data_paths_config := v1,
        data_scope_config := v2,
        symbol_registry_config := v3 }) ∨
    (∃ v1, parse_data_paths (j.find? "data_paths") = .ok v1 ∧
     ∃ v2, parse_data_scope (j.find? "data_scope") = .ok v2 ∧
     ∃ v3, parse_symbol_registry (j.find? "symbol_registry") = .ok v3 ∧
     ∃ v4, parse_symbol_matching (j.find? "symbol_matching") = .ok v4 ∧
     (∃ m, parse_preprocessing (j.find? "preprocessing") = .error m) ∧
     s' = { s with
        data_paths_config := v1,
        data_scope_config := v2,
        symbol_registry_config := v3,
        symbol_matching_config := v4 }) ∨
    (∃ v1, parse_data_paths (j.find? "data_paths") = .ok v1 ∧
     ∃ v2, parse_data_scope (j.find? "data_scope") = .ok v2 ∧
     ∃ v3, parse_symbol_registry (j.find? "symbol_registry") = .ok v3 ∧
     ∃ v4, parse_symbol_matching (j.find? "symbol_matching") = .ok v4 ∧
     ∃ v5, parse_preprocessing (j.find? "preprocessing") = .ok v5 ∧
     (∃ m, parse_acceleration (j.find? "acceleration") = .error m) ∧
     s' = { s with
        data_paths_config := v1,
        data_scope_config := v2,
        symbol_registry_config := v3,
        symbol_matching_config := v4,
        preprocessing_config := v5 }) ∨
    (∃ v1, parse_data_paths (j.find? "data_paths") = .ok v1 ∧
     ∃ v2, parse_data_scope (j.find? "data_scope") = .ok v2 ∧
     ∃ v3, parse_symbol_registry (j.find? "symbol_registry") = .ok v3 ∧
     ∃ v4, parse_symbol_matching (j.find? "symbol_matching") = .ok v4 ∧
     ∃ v5, parse_preprocessing (j.find? "preprocessing") = .ok v5 ∧
     ∃ v6, parse_acceleration (j.find? "acceleration") = .ok v6 ∧
     (∃ m, parse_logger (j.find? "logger") = .error m) ∧
     s' = { s with
        data_paths_config := v1,
        data_scope_config := v2,
        symbol_registry_config := v3,
        symbol_matching_config := v4,
        preprocessing_config := v5,
        acceleration_config := v6 }) ∨
    (∃ v1, parse_data_paths (j.find? "data_paths") = .ok v1 ∧
     ∃ v2, parse_data_scope (j.find? "data_scope") = .ok v2 ∧
     ∃ v3, parse_symbol_registry (j.find? "symbol_registry") = .ok v3 ∧
     ∃ v4, parse_symbol_matching (j.find? "symbol_matching") = .ok v4 ∧
     ∃ v5, parse_preprocessing (j.find? "preprocessing") = .ok v5 ∧
     ∃ v6, parse_acceleration (j.find? "acceleration") = .ok v6 ∧
     ∃ v7, parse_logger (j.find? "logger") = .ok v7 ∧
     (∃ m, parse_export (j.find? "export") = .error m) ∧
     s' = { s with
        data_paths_config := v1,
        data_scope_config := v2,
        symbol_registry_config := v3,
        symbol_matching_config := v4,
        preprocessing_config := v5,
        acceleration_config := v6,
        logger_config := v7 }) ∨
    (∃ v1, parse_data_paths (j.find? "data_paths") = .ok v1 ∧
     ∃ v2, parse_data_scope (j.find? "data_scope") = .ok v2 ∧
     ∃ v3, parse_symbol_registry (j.find? "symbol_registry") = .ok v3 ∧
     ∃ v4, parse_symbol_matching (j.find? "symbol_matching") = .ok v4 ∧
     ∃ v5, parse_preprocessing (j.find? "preprocessing") = .ok v5 ∧
     ∃ v6, parse_acceleration (j.find? "acceleration") = .ok v6 ∧
     ∃ v7, parse_logger (j.find? "logger") = .ok v7 ∧
     ∃ v8, parse_export (j.find? "export") = .ok v8 ∧
     (∃ m, parse_stream_logging (j.find? "stream_logging") = .error m) ∧
     s' = { s with
        data_paths_config := v1,
        data_scope_config := v2,
        symbol_registry_config := v3,
        symbol_matching_config := v4,
        preprocessing_config := v5,
        acceleration_config := v6,
        logger_config := v7,
        export_config_ptr := v8 }) ∨
    (∃ v1, parse_data_paths (j.find? "data_paths") = .ok v1 ∧
     ∃ v2, parse_data_scope (j.find? "data_scope") = .ok v2 ∧
     ∃ v3, parse_symbol_registry (j.find? "symbol_registry") = .ok v3 ∧
     ∃ v4, parse_symbol_matching (j.find? "symbol_matching") = .ok v4 ∧
     ∃ v5, parse_preprocessing (j.find? "preprocessing") = .ok v5 ∧
     ∃ v6, parse_acceleration (j.find? "acceleration") = .ok v6 ∧
     ∃ v7, parse_logger (j.find? "logger") = .ok v7 ∧
     ∃ v8, parse_export (j.find? "export") = .ok v8 ∧
     ∃ v9, parse_stream_logging (j.find? "stream_logging") = .ok v9 ∧
     (∃ m, parse_execution (j.find? "execution") = .error m) ∧
     s' = { s with
        data_paths_config := v1,
        data_scope_config := v2,
        symbol_registry_config := v3,
        symbol_matching_config := v4,
        preprocessing_config := v5,
        acceleration_config := v6,
        logger_config := v7,
        export_config_ptr := v8,
        stream_logging_config := v9 }) ∨
    (∃ v1, parse_data_paths (j.find? "data_paths") = .ok v1 ∧
     ∃ v2, parse_data_scope (j.find? "data_scope") = .ok v2 ∧
     ∃ v3, parse_symbol_registry (j.find? "symbol_registry") = .ok v3 ∧
     ∃ v4, parse_symbol_matching (j.find? "symbol_matching") = .ok v4 ∧
     ∃ v5, parse_preprocessing (j.find? "preprocessing") = .ok v5 ∧
     ∃ v6, parse_acceleration (j.find? "acceleration") = .ok v6 ∧
     ∃ v7, parse_logger (j.find? "logger") = .ok v7 ∧
     ∃ v8, parse_export (j.find? "export") = .ok v8 ∧
     ∃ v9, parse_stream_logging (j.find? "stream_logging") = .ok v9 ∧
     ∃ v10, parse_execution (j.find? "execution") = .ok v10 ∧
     (∃ m, parse_post_compute (j.find? "post_compute") = .error m) ∧
     s' = { s with
        data_paths_config := v1,
        data_scope_config := v2,
        symbol_registry_config := v3,
        symbol_matching_config := v4,
        preprocessing_config := v5,
        acceleration_config := v6,
        logger_config := v7,
        export_config_ptr := v8,
        stream_logging_config := v9,
        execution_config := v10 }) ∨
    (∃ v1, parse_data_paths (j.find? "data_paths") = .ok v1 ∧
     ∃ v2, parse_data_scope (j.find? "data_scope") = .ok v2 ∧
     ∃ v3, parse_symbol_registry (j.find? "symbol_registry") = .ok v3 ∧
     ∃ v4, parse_symbol_matching (j.find? "symbol_matching") = .ok v4 ∧
     ∃ v5, parse_preprocessing (j.find? "preprocessing") = .ok v5 ∧
     ∃ v6, parse_acceleration (j.find? "acceleration") = .ok v6 ∧
     ∃ v7, parse_logger (j.find? "logger") = .ok v7 ∧
     ∃ v8, parse_export (j.find? "export") = .ok v8 ∧
     ∃ v9, parse_stream_logging (j.find? "stream_logging") = .ok v9 ∧
     ∃ v10, parse_execution (j.find? "execution") = .ok v10 ∧
     ∃ v11, parse_post_compute (j.find? "post_compute") = .ok v11 ∧
     (∃ m, parse_market_constants (j.find? "market_constants") = .error m) ∧
     s' = { s with
        data_paths_config := v1,
        data_scope_config := v2,
        symbol_registry_config := v3,
        symbol_matching_config := v4,
        preprocessing_config := v5,
        acceleration_config := v6,
        logger_config := v7,
        export_config_ptr := v8,
        stream_logging_config := v9,
        execution_config := v10,
        post_compute_config := v11 }) := by
  unfold parse_json at h
  split at h
  · rename_i m hh1
    exact Or.inl ⟨⟨m, hh1⟩, (((Prod.mk.injEq _ _ _ _).mp h).2).symm⟩
  rename_i v1 hh1
  split at h
  · rename_i m hh2
    exact Or.inr (Or.inl ⟨v1, hh1, ⟨m, hh2⟩, (((Prod.mk.injEq _ _ _ _).mp h).2).symm⟩)
  rename_i v2 hh2
  split at h
  · rename_i m hh3
    exact Or.inr (Or.inr (Or.inl ⟨v1, hh1, v2, hh2, ⟨m, hh3⟩, (((Prod.mk.injEq _ _ _ _).mp h).2).symm⟩))
  rename_i v3 hh3
  split at h
  · rename_i m hh4
    exact Or.inr (Or.inr (Or.inr (Or.inl ⟨v1, hh1, v2, hh2, v3, hh3, ⟨m, hh4⟩, (((Prod.mk.injEq _ _ _ _).mp h).2).symm⟩)))
  rename_i v4 hh4
  split at h
  · rename_i m hh5
    exact Or.inr (Or.inr (Or.inr (Or.inr (Or.inl ⟨v1, hh1, v2, hh2, v3, hh3, v4, hh4, ⟨m, hh5⟩, (((Prod.mk.injEq _ _ _ _).mp h).2).symm⟩))))
  rename_i v5 hh5
  split at h
  · rename_i m hh6
    exact Or.inr (Or.inr (Or.inr (Or.inr (Or.inr (Or.inl ⟨v1, hh1, v2, hh2, v3, hh3, v4, hh4, v5, hh5, ⟨m, hh6⟩, (((Prod.mk.injEq _ _ _ _).mp h).2).symm⟩)))))
  rename_i v6 hh6
  split at h
  · rename_i m hh7
    exact Or.inr (Or.inr (Or.inr (Or.inr (Or.inr (Or.inr (Or.inl ⟨v1, hh1, v2, hh2, v3, hh3, v4, hh4, v5, hh5, v6, hh6, ⟨m, hh7⟩, (((Prod.mk.injEq _ _ _ _).mp h).2).symm⟩))))))
  rename_i v7 hh7
  split at h
  · rename_i m hh8
    exact Or.inr (Or.inr (Or.inr (Or.inr (Or.inr (Or.inr (Or.inr (Or.inl ⟨v1, hh1, v2, hh2, v3, hh3, v4, hh4, v5, hh5, v6, hh6, v7, hh7, ⟨m, hh8⟩, (((Prod.mk.injEq _ _ _ _).mp h).2).symm⟩)))))))
  rename_i v8 hh8
  split at h
  · rename_i m hh9
    exact Or.inr (Or.inr (Or.inr (Or.inr (Or.inr (Or.inr (Or.inr (Or.inr (Or.inl ⟨v1, hh1, v2, hh2, v3, hh3, v4, hh4, v5, hh5, v6, hh6, v7, hh7, v8, hh8, ⟨m, hh9⟩, (((Prod.mk.injEq _ _ _ _).mp h).2).symm⟩))))))))
  rename_i v9 hh9
  split at h
  · rename_i m hh10
    exact Or.inr (Or.inr (Or.inr (Or.inr (Or.inr (Or.inr (Or.inr (Or.inr (Or.inr (Or.inl ⟨v1, hh1, v2, hh2, v3, hh3, v4, hh4, v5, hh5, v6, hh6, v7, hh7, v8, hh8, v9, hh9, ⟨m, hh10⟩, (((Prod.mk.injEq _ _ _ _).mp h).2).symm⟩)))))))))
  rename_i v10 hh10
  split at h
  · rename_i m hh11
    exact Or.inr (Or.inr (Or.inr (Or.inr (Or.inr (Or.inr (Or.inr (Or.inr (Or.inr (Or.inr (Or.inl ⟨v1, hh1, v2, hh2, v3, hh3, v4, hh4, v5, hh5, v6, hh6, v7, hh7, v8, hh8, v9, hh9, v10, hh10, ⟨m, hh11⟩, (((Prod.mk.injEq _ _ _ _).mp h).2).symm⟩))))))))))
  rename_i v11 hh11
  split at h
  · rename_i m hh12
    exact Or.inr (Or.inr (Or.inr (Or.inr (Or.inr (Or.inr (Or.inr (Or.inr (Or.inr (Or.inr (Or.inr (⟨v1, hh1, v2, hh2, v3, hh3, v4, hh4, v5, hh5, v6, hh6, v7, hh7, v8, hh8, v9, hh9, v10, hh10, v11, hh11, ⟨m, hh12⟩, (((Prod.mk.injEq _ _ _ _).mp h).2).symm⟩)))))))))))
  rename_i v12 hh12
  simp at h

/-- Witness for C1 (amended) at a concrete document whose data_paths
maps successfully and whose data_scope value is a number: the parse
fails with the data_paths domain retained. -/
theorem parse_failure_retains_prior_domains_witness :
    parse_json (JVal.obj [("data_paths", JVal.obj []), ("data_scope", JVal.int 5)])
      config.empty =
      (false, { config.empty with data_paths_config := some {} }) := by
  have h := parse_failure_retains_prior_domains
    (JVal.obj [("data_paths", JVal.obj []), ("data_scope", JVal.int 5)]) config.empty
    (parse_json (JVal.obj [("data_paths", JVal.obj []), ("data_scope", JVal.int 5)])
      config.empty).2 rfl
  rcases h with ⟨⟨m, hm⟩, -⟩ | ⟨v1, hv1, -, hs⟩ | h'
  · rw [show parse_data_paths ((JVal.obj [("data_paths", JVal.obj []),
        ("data_scope", JVal.int 5)]).find? "data_paths") = .ok (some {}) from rfl] at hm
    cases hm
  · rw [show parse_data_paths ((JVal.obj [("data_paths", JVal.obj []),
        ("data_scope", JVal.int 5)]).find? "data_paths") = .ok (some {}) from rfl] at hv1
    injection hv1 with hv1'
    subst hv1'
    exact Prod.ext_iff.mpr ⟨rfl, hs⟩
  · rcases h' with ⟨v1, -, v2, hv2, -⟩ | ⟨v1, -, v2, hv2, -⟩ | ⟨v1, -, v2, hv2, -⟩ |
      ⟨v1, -, v2, hv2, -⟩ | ⟨v1, -, v2, hv2, -⟩ | ⟨v1, -, v2, hv2, -⟩ |
      ⟨v1, -, v2, hv2, -⟩ | ⟨v1, -, v2, hv2, -⟩ | ⟨v1, -, v2, hv2, -⟩ |
      ⟨v1, -, v2, hv2, -⟩ <;>
      (rw [show parse_data_scope ((JVal.obj [("data_paths", JVal.obj []),
        ("data_scope", JVal.int 5)]).find? "data_scope") =
        Except.error "cannot use value with non-object" from rfl] at hv2;
       cases hv2)
/-- Claim C5: when a data_paths object omits the log_root key, the
parsed log_root equals the (possibly itself defaulted) export_root. -/
theorem log_root_defaults_to_export_root (j : JVal) (s s' : config) (p : JVal)
    (dp : data_paths)
    (hp : j.find? "data_paths" = some p)
    (hnolog : p.find? "log_root" = none)
    (h : parse_json j s = (true, s'))
    (hdp : s'.data_paths_config = some dp) :
    dp.log_root = dp.export_root := by
  have h1 := (parse_json_ok h).1
  rw [hp, hdp] at h1
  have hobj := optStep_some_ok h1
  cases p
  case obj kvs =>
    simp only [parse_data_paths_obj, except_bind_ok, except_pure_eq, Except.ok.injEq] at hobj
    obtain ⟨dr, hdr, sp, hsp, er, her, lr, hlr, hc⟩ := hobj
    subst hc
    rw [find?_obj] at hnolog
    rw [jvalue_lookup_none hnolog getStr er] at hlr
    injection hlr with h'
    exact h'.symm
  all_goals simp [parse_data_paths_obj, jvalue, except_error_bind] at hobj

/-- Witness for C5: parsing a data_paths object supplying only
export_root = "/out" yields log_root = "/out". -/
theorem log_root_defaults_to_export_root_witness :
    (((parse_json (JVal.obj [("data_paths", JVal.obj [("export_root", JVal.str "/out")])])
        config.empty).2.data_paths_config).getD {}).log_root = "/out" := by
  have h := log_root_defaults_to_export_root
    (JVal.obj [("data_paths", JVal.obj [("export_root", JVal.str "/out")])]) config.empty
    (parse_json (JVal.obj [("data_paths", JVal.obj [("export_root", JVal.str "/out")])])
      config.empty).2
    (JVal.obj [("export_root", JVal.str "/out")])
    (((parse_json (JVal.obj [("data_paths", JVal.obj [("export_root", JVal.str "/out")])])
        config.empty).2.data_paths_config).getD {})
    rfl rfl rfl rfl
  exact h.trans rfl

/-- Claim C6: parsing a present export object yields a present Export
domain whose fields take their supplied values when present and the
defaults file_format = "parquet" and codec = "none" when absent. -/
theorem export_field_defaults (j : JVal) (s s' : config) (kvs : List (String × JVal))
    (e : export_config)
    (hx : j.find? "export" = some (JVal.obj kvs))
    (h : parse_json j s = (true, s'))
    (he : s'.export_config_ptr = some e) :
    (kvs.lookup "file_format" = none → e.file_format = "parquet") ∧
    (kvs.lookup "codec" = none → e.codec = "none") ∧
    (∀ v t, kvs.lookup "file_format" = some v → getStr v = .ok t → e.file_format = t) ∧
    (∀ v t, kvs.lookup "codec" = some v → getStr v = .ok t → e.codec = t) := by
  have h8 := (parse_json_ok h).2.2.2.2.2.2.2.1
  rw [hx, he] at h8
  have hobj := optStep_some_ok h8
  simp only [parse_export_obj, except_bind_ok, except_pure_eq, Except.ok.injEq] at hobj
  obtain ⟨f, hf, c, hcc, hc⟩ := hobj
  subst hc
  refine ⟨?_, ?_, ?_, ?_⟩
  · intro hn
    rw [jvalue_lookup_none hn getStr "parquet"] at hf
    injection hf with h'
    exact h'.symm
  · intro hn
    rw [jvalue_lookup_none hn getStr "none"] at hcc
    injection hcc with h'
    exact h'.symm
  · intro v t hv ht
    rw [jvalue_lookup_some hv getStr "parquet", ht] at hf
    injection hf with h'
    exact h'.symm
  · intro v t hv ht
    rw [jvalue_lookup_some hv getStr "none", ht] at hcc
    injection hcc with h'
    exact h'.symm

/-- Witness for C6: parsing an empty export object yields
file_format = "parquet" and codec = "none". -/
theorem export_field_defaults_witness :
    (((parse_json (JVal.obj [("export", JVal.obj [])]) config.empty).2.export_config_ptr).getD
      {}).file_format = "parquet" ∧
    (((parse_json (JVal.obj [("export", JVal.obj [])]) config.empty).2.export_config_ptr).getD
      {}).codec = "none" := by
  have h := export_field_defaults (JVal.obj [("export", JVal.obj [])]) config.empty
    (parse_json (JVal.obj [("export", JVal.obj [])]) config.empty).2 []
    (((parse_json (JVal.obj [("export", JVal.obj [])]) config.empty).2.export_config_ptr).getD
      {})
    rfl rfl rfl
  exact ⟨h.1 rfl, h.2.1 rfl⟩

/-- Counterexample to claim C9 as stated: a recognized domain key whose
value is not a JSON object is not silently treated as empty for every
domain — with data_paths bound to a number the whole parse fails. -/
theorem non_object_domain_cex :
    (parse_json (JVal.obj [("data_paths", JVal.int 5)]) config.empty).1 = false := rfl

/-- Claim C9 (amended): a non-object value under a recognized key never
escapes as an exception — the parse always returns an outcome.  The
symbol_registry domain silently treats a non-object value as an empty
mapping (a present domain with an empty mapping, and overall success on
documents whose other domains map), and the is_object-guarded nested
structures of market_constants (the three month maps and
trading_schedule) silently treat a non-object value as empty /
value-initialized; but for every other recognized top-level domain key,
a present non-object value makes the whole parse return failure. -/
theorem non_object_domain_behavior (j : JVal) (s : config) (v : JVal)
    (h : v.isObject = false) :
    parse_symbol_registry (some v) = .ok (some { mappings := [] }) ∧
    (∀ s', j.find? "symbol_registry" = some v → parse_json j s = (true, s') →
      s'.symbol_registry_config = some { mappings := [] }) ∧
    (j.find? "data_paths" = some v → (parse_json j s).1 = false) ∧
    (j.find? "data_scope" = some v → (parse_json j s).1 = false) ∧
    (j.find? "symbol_matching" = some v → (parse_json j s).1 = false) ∧
    (j.find? "preprocessing" = some v → (parse_json j s).1 = false) ∧
    (j.find? "acceleration" = some v → (parse_json j s).1 = false) ∧
    (j.find? "logger" = some v → (parse_json j s).1 = false) ∧
    (j.find? "export" = some v → (parse_json j s).1 = false) ∧
    (j.find? "stream_logging" = some v → (parse_json j s).1 = false) ∧
    (j.find? "execution" = some v → (parse_json j s).1 = false) ∧
    (j.find? "post_compute" = some v → (parse_json j s).1 = false) ∧
    (j.find? "market_constants" = some v → (parse_json j s).1 = false) ∧
    (∀ s' cr c, parse_json j s = (true, s') → j.find? "market_constants" = some cr →
      s'.market_constants_config = some c →
      ((cr.find? "calendar_month_map" = some v → c.calendar_month_map = []) ∧
       (cr.find? "numeric_month_map" = some v → c.numeric_month_map = []) ∧
       (cr.find? "alpha_month_map" = some v → c.alpha_month_map = []) ∧
       (cr.find? "trading_schedule" = some v → c.market_timing = {}))) := by
  refine ⟨?_, ?_, ?_, ?_, ?_, ?_, ?_, ?_, ?_, ?_, ?_, ?_, ?_, ?_⟩
  · unfold parse_symbol_registry
    rw [optStep_some, parse_symbol_registry_obj_not_object h, except_ok_map]
  · intro s' hfind hps
    have h3 := (parse_json_ok hps).2.2.1
    rw [hfind] at h3
    obtain ⟨c, hc, hfc⟩ := optStep_some_spec h3
    rw [hc, parse_symbol_registry_obj_spec hfc, registryOr_not_object h]
  · intro hfind
    cases hres : parse_json j s with
    | mk b s2 =>
      cases b with
      | false => rfl
      | true =>
        exfalso
        have hx := (parse_json_ok hres).1
        rw [hfind, parse_data_paths_not_object h] at hx
        cases hx
  · intro hfind
    cases hres : parse_json j s with
    | mk b s2 =>
      cases b with
      | false => rfl
      | true =>
        exfalso
        have hx := (parse_json_ok hres).2.1
        rw [hfind, parse_data_scope_not_object h] at hx
        cases hx
  · intro hfind
    cases hres : parse_json j s with
    | mk b s2 =>
      cases b with
      | false => rfl
      | true =>
        exfalso
        have hx := (parse_json_ok hres).2.2.2.1
        rw [hfind, parse_symbol_matching_not_object h] at hx
        cases hx
  · intro hfind
    cases hres : parse_json j s with
    | mk b s2 =>
      cases b with
      | false => rfl
      | true =>
        exfalso
        have hx := (parse_json_ok hres).2.2.2.2.1
        rw [hfind, parse_preprocessing_not_object h] at hx
        cases hx
  · intro hfind
    cases hres : parse_json j s with
    | mk b s2 =>
      cases b with
      | false => rfl
      | true =>
        exfalso
        have hx := (parse_json_ok hres).2.2.2.2.2.1
        rw [hfind, parse_acceleration_not_object h] at hx
        cases hx
  · intro hfind
    cases hres : parse_json j s with
    | mk b s2 =>
      cases b with
      | false => rfl
      | true =>
        exfalso
        have hx := (parse_json_ok hres).2.2.2.2.2.2.1
        rw [hfind, parse_logger_not_object h] at hx
        cases hx
  · intro hfind
    cases hres : parse_json j s with
    | mk b s2 =>
      cases b with
      | false => rfl
      | true =>
        exfalso
        have hx := (parse_json_ok hres).2.2.2.2.2.2.2.1
        rw [hfind, parse_export_not_object h] at hx
        cases hx
  · intro hfind
    cases hres : parse_json j s with
    | mk b s2 =>
      cases b with
      | false => rfl
      | true =>
        exfalso
        have hx := (parse_json_ok hres).2.2.2.2.2.2.2.2.1
        rw [hfind, parse_stream_logging_not_object h] at hx
        cases hx
  · intro hfind
    cases hres : parse_json j s with
    | mk b s2 =>
      cases b with
      | false => rfl
      | true =>
        exfalso
        have hx := (parse_json_ok hres).2.2.2.2.2.2.2.2.2.1
        rw [hfind, parse_execution_not_object h] at hx
        cases hx
  · intro hfind
    cases hres : parse_json j s with
    | mk b s2 =>
      cases b with
      | false => rfl
      | true =>
        exfalso
        have hx := (parse_json_ok hres).2.2.2.2.2.2.2.2.2.2.1
        rw [hfind, parse_post_compute_not_object h] at hx
        cases hx
  · intro hfind
    cases hres : parse_json j s with
    | mk b s2 =>
      cases b with
      | false => rfl
      | true =>
        exfalso
        have hx := (parse_json_ok hres).2.2.2.2.2.2.2.2.2.2.2
        rw [hfind, parse_market_constants_not_object h] at hx
        cases hx
  · intro s' cr c hps hcr hc
    have h12 := (parse_json_ok hps).2.2.2.2.2.2.2.2.2.2.2
    rw [hcr, hc] at h12
    have hspec := parse_market_constants_obj_spec (optStep_some_ok h12)
    subst hspec
    refine ⟨?_, ?_, ?_, ?_⟩
    · intro hf
      show month_map_or cr "calendar_month_map" = []
      exact month_map_or_not_object hf h
    · intro hf
      show month_map_or cr "numeric_month_map" = []
      exact month_map_or_not_object hf h
    · intro hf
      show month_map_or cr "alpha_month_map" = []
      exact month_map_or_not_object hf h
    · intro hf
      show market_timing_spec cr = {}
      exact market_timing_spec_not_object hf h

/-- Witness for C9 (amended) at the non-object value 7 in three concrete
documents: symbol_registry succeeds as a present empty mapping,
data_paths fails the parse, and a guarded month map is silently
empty. -/
theorem non_object_domain_behavior_witness :
    (parse_json (JVal.obj [("symbol_registry", JVal.int 7)]) config.empty).1 = true ∧
    (parse_json (JVal.obj [("symbol_registry", JVal.int 7)])
        config.empty).2.symbol_registry_config = some { mappings := [] } ∧
    (parse_json (JVal.obj [("data_paths", JVal.int 7)]) config.empty).1 = false ∧
    (((parse_json (JVal.obj [("market_constants",
        JVal.obj [("calendar_month_map", JVal.int 7)])])
        config.empty).2.market_constants_config).getD {}).calendar_month_map = [] := by
  refine ⟨rfl, ?_, ?_, ?_⟩
  · exact (non_object_domain_behavior (JVal.obj [("symbol_registry", JVal.int 7)])
      config.empty (JVal.int 7) rfl).2.1
      (parse_json (JVal.obj [("symbol_registry", JVal.int 7)]) config.empty).2 rfl rfl
  · exact (non_object_domain_behavior (JVal.obj [("data_paths", JVal.int 7)])
      config.empty (JVal.int 7) rfl).2.2.1 rfl
  · exact ((non_object_domain_behavior (JVal.obj [("market_constants",
        JVal.obj [("calendar_month_map", JVal.int 7)])]) config.empty (JVal.int 7)
        rfl).2.2.2.2.2.2.2.2.2.2.2.2.2
      (parse_json (JVal.obj [("market_constants",
        JVal.obj [("calendar_month_map", JVal.int 7)])]) config.empty).2
      (JVal.obj [("calendar_month_map", JVal.int 7)])
      (((parse_json (JVal.obj [("market_constants",
        JVal.obj [("calendar_month_map", JVal.int 7)])])
        config.empty).2.market_constants_config).getD {}) rfl rfl rfl).1 rfl
theorem lookup_mapInsert_self {α : Type} (k : String) (v : α) (m : List (String × α)) :
    (mapInsert k v m).lookup k = some v := by
  induction m with
  | nil => simp [mapInsert, List.lookup]
  | cons kv rest ih =>
    obtain ⟨k', v'⟩ := kv
    by_cases hk : k = k'
    · subst hk
      simp [mapInsert, List.lookup]
    · have hb : (k == k') = false := beq_eq_false_iff_ne.mpr hk
      simp [mapInsert, hk, List.lookup, hb, ih]

theorem lookup_mapInsert_ne {α : Type} {k k' : String} (h : k ≠ k') (v : α)
    (m : List (String × α)) : (mapInsert k' v m).lookup k = m.lookup k := by
  have hb : (k == k') = false := beq_eq_false_iff_ne.mpr h
  induction m with
  | nil => simp [mapInsert, List.lookup, hb]
  | cons kv rest ih =>
    obtain ⟨k'', v''⟩ := kv
    by_cases hk : k' = k''
    · subst hk
      simp [mapInsert, List.lookup, hb]
    · by_cases hkk : k = k''
      · subst hkk
        simp [mapInsert, hk, List.lookup]
      · have hbk : (k == k'') = false := beq_eq_false_iff_ne.mpr hkk
        simp [mapInsert, hk, List.lookup, hbk, ih]

/-- Entries whose key never occurs leave the registry at that key
untouched. -/
theorem build_registry_untouched {k : String} :
    ∀ (entries : List (String × JVal)) (acc reg : List (String × List (String × String))),
      build_registry entries acc = .ok reg → k ∉ entries.map Prod.fst →
      reg.lookup k = acc.lookup k := by
  intro entries
  induction entries with
  | nil =>
    intro acc reg h hk
    simp only [build_registry] at h
    injection h with h'
    rw [h']
  | cons kv rest ih =>
    intro acc reg h hk
    obtain ⟨k', v'⟩ := kv
    simp only [List.map_cons, List.mem_cons] at hk
    push_neg at hk
    obtain ⟨hk1, hk2⟩ := hk
    simp only [build_registry] at h
    by_cases ho : v'.isObject = true
    · rw [if_pos ho] at h
      cases hg : getStrMap v' with
      | error m => rw [hg] at h; cases h
      | ok d =>
        rw [hg] at h
        rw [ih _ _ h hk2, lookup_mapInsert_ne hk1]
    · rw [if_neg ho] at h
      exact ih _ _ h hk2

/-- The registry holds a key exactly when some entry with that key has
an object value. -/
theorem build_registry_isSome {k : String} :
    ∀ (entries : List (String × JVal)) (acc reg : List (String × List (String × String))),
      build_registry entries acc = .ok reg →
      ((reg.lookup k).isSome = true ↔
        ((acc.lookup k).isSome = true ∨ ∃ v, (k, v) ∈ entries ∧ v.isObject = true)) := by
  intro entries
  induction entries with
  | nil =>
    intro acc reg h
    simp only [build_registry] at h
    injection h with h'
    subst h'
    simp
  | cons kv rest ih =>
    intro acc reg h
    obtain ⟨k', v'⟩ := kv
    simp only [build_registry] at h
    by_cases ho : v'.isObject = true
    · rw [if_pos ho] at h
      cases hg : getStrMap v' with
      | error m => rw [hg] at h; cases h
      | ok d =>
        rw [hg] at h
        rw [ih _ _ h]
        by_cases hk : k = k'
        · subst hk
          constructor
          · intro _
            exact Or.inr ⟨v', List.mem_cons_self _ _, ho⟩
          · intro _
            left
            rw [lookup_mapInsert_self]
            rfl
        · rw [lookup_mapInsert_ne hk]
          constructor
          · rintro (ha | ⟨v, hv, hvo⟩)
            · exact Or.inl ha
            · exact Or.inr ⟨v, List.mem_cons_of_mem _ hv, hvo⟩
          · rintro (ha | ⟨v, hv, hvo⟩)
            · exact Or.inl ha
            · rcases List.mem_cons.mp hv with he | hv'
              · exact absurd (congrArg Prod.fst he) hk
              · exact Or.inr ⟨v, hv', hvo⟩
    · rw [if_neg ho] at h
      rw [ih _ _ h]
      constructor
      · rintro (ha | ⟨v, hv, hvo⟩)
        · exact Or.inl ha
        · exact Or.inr ⟨v, List.mem_cons_of_mem _ hv, hvo⟩
      · rintro (ha | ⟨v, hv, hvo⟩)
        · exact Or.inl ha
        · rcases List.mem_cons.mp hv with he | hv'
          · exact absurd ((show v = v' from congrArg Prod.snd he) ▸ hvo) ho
          · exact Or.inr ⟨v, hv', hvo⟩

/-- Under unique keys, an object-valued entry is decoded and stored
under its key. -/
theorem build_registry_lookup {k : String} {v : JVal} :
    ∀ (entries : List (String × JVal)) (acc reg : List (String × List (String × String))),
      build_registry entries acc = .ok reg →
      (entries.map Prod.fst).Nodup →
      (k, v) ∈ entries → v.isObject = true →
      ∃ d, getStrMap v = .ok d ∧ reg.lookup k = some d := by
  intro entries
  induction entries with
  | nil =>
    intro acc reg h hnd hmem ho
    cases hmem
  | cons kv rest ih =>
    intro acc reg h hnd hmem ho
    obtain ⟨k', v'⟩ := kv
    simp only [List.map_cons, List.nodup_cons] at hnd
    obtain ⟨hk', hnd'⟩ := hnd
    simp only [build_registry] at h
    rcases List.mem_cons.mp hmem with he | hmem'
    · obtain ⟨hek, hev⟩ := Prod.mk.injEq .. |>.mp he
      subst hek
      subst hev
      rw [if_pos ho] at h
      cases hg : getStrMap v with
      | error m => rw [hg] at h; cases h
      | ok d =>
        rw [hg] at h
        refine ⟨d, rfl, ?_⟩
        rw [build_registry_untouched rest _ _ h hk', lookup_mapInsert_self]
    · by_cases ho' : v'.isObject = true
      · rw [if_pos ho'] at h
        cases hg : getStrMap v' with
        | error m => rw [hg] at h; cases h
        | ok d' =>
          rw [hg] at h
          exact ih _ _ h hnd' hmem' ho
      · rw [if_neg ho'] at h
        exact ih _ _ h hnd' hmem' ho

/-- Claim C4: the registry produced from a symbol_registry object
contains exactly the entries whose value is itself an object, each
decoded as a string-to-string map under the entry's key; non-object
entries contribute nothing. -/
theorem symbol_registry_filtering (j : JVal) (s s' : config)
    (entries : List (String × JVal)) (reg : symbol_registry)
    (hreg : j.find? "symbol_registry" = some (JVal.obj entries))
    (h : parse_json j s = (true, s'))
    (hr : s'.symbol_registry_config = some reg) :
    (∀ k, (reg.mappings.lookup k).isSome = true ↔
      ∃ v, (k, v) ∈ entries ∧ v.isObject = true) ∧
    ((entries.map Prod.fst).Nodup → ∀ k v, (k, v) ∈ entries → v.isObject = true →
      ∃ d, getStrMap v = .ok d ∧ reg.mappings.lookup k = some d) := by
  have h3 := (parse_json_ok h).2.2.1
  rw [hreg, hr] at h3
  have hobj := optStep_some_ok h3
  simp only [parse_symbol_registry_obj] at hobj
  cases hb : build_registry entries [] with
  | error m => rw [hb, except_error_map] at hobj; cases hobj
  | ok mp =>
    rw [hb, except_ok_map] at hobj
    injection hobj with h'
    subst h'
    constructor
    · intro k
      have hiff := @build_registry_isSome k entries [] mp hb
      simpa using hiff
    · intro hnd k v hmem ho
      exact build_registry_lookup entries [] mp hb hnd hmem ho

/-- Witness for C4 at the registry with entries A (an object) and B (a
string): the parse succeeds, A is mapped, B is absent. -/
theorem symbol_registry_filtering_witness :
    (parse_json doc_registry config.empty).1 = true ∧
    ((((parse_json doc_registry config.empty).2.symbol_registry_config).getD
      {}).mappings.lookup "A") = some [("x", "1")] ∧
    ((((parse_json doc_registry config.empty).2.symbol_registry_config).getD
      {}).mappings.lookup "B") = none := by
  have h := symbol_registry_filtering doc_registry config.empty
    (parse_json doc_registry config.empty).2
    [("A", JVal.obj [("x", JVal.str "1")]), ("B", JVal.str "not-an-object")]
    (((parse_json doc_registry config.empty).2.symbol_registry_config).getD {})
    rfl rfl rfl
  refine ⟨rfl, ?_, rfl⟩
  obtain ⟨d, hd, hl⟩ := h.2 (by decide) "A" (JVal.obj [("x", JVal.str "1")])
    (List.mem_cons_self _ _) rfl
  have hgd : getStrMap (JVal.obj [("x", JVal.str "1")]) = .ok [("x", "1")] := rfl
  rw [hgd] at hd
  injection hd with hd'
  rw [hl, ← hd']
